import Mathlib

/-!
Verification of the storage-retrieval and view-state reconciliation core of
the `local-storage-explorer` DevTools panel (`src/js/options.js`,
`src/js/StorageDriver.js`).

The embedding models:
  * JavaScript values reaching `WebStorageExplorer.guessType` (`JSVal`),
  * the builtin `JSON.parse` used by `tryParseJSON` (a total, fuel-driven
    recursive-descent parser over the RFC 8259 grammar; a JSON number is kept
    as its source lexeme since no behaviour of the panel depends on numeric
    semantics, only on the value being a number),
  * the builtin `JSON.stringify` on string arguments, used by
    `StorageDriver.removeKey` to quote key names,
  * the `WebStorageExplorer` controller state and its refresh / reconciliation
    cycle as pure state-passing functions, one per source method,
  * the host bridge (`chrome.devtools.inspectedWindow.eval`) as an environment
    (`RemoteEnv`) holding the two remote storages plus a failure flag, with the
    requests issued to it reified as a `Request` list.
-/

/-- A JavaScript value as it can reach `WebStorageExplorer.guessType`:
either the result of `JSON.parse` (null, boolean, number, string, array,
object) or — defensively, and never produced by this program's data flow —
`undefined`, on which `typeof` is `"undefined"` and `guessType` answers
`"other"`.  A number carries its source lexeme. -/
inductive JSVal where
  | null : JSVal
  | undefined : JSVal
  | bool (b : Bool) : JSVal
  | num (lexeme : String) : JSVal
  | str (s : String) : JSVal
  | arr (elems : List JSVal) : JSVal
  | obj (members : List (String × JSVal)) : JSVal

/-- JSON insignificant whitespace, skipped between tokens (RFC 8259 `ws`). -/
def skipWs : List Char → List Char
  | c :: cs => if c = ' ' ∨ c = '\t' ∨ c = '\n' ∨ c = '\r' then skipWs cs else c :: cs
  | [] => []

/-- Value of one hexadecimal digit, as accepted in a `\uXXXX` escape. -/
def hexVal (c : Char) : Option Nat :=
  if '0' ≤ c ∧ c ≤ '9' then some (c.toNat - '0'.toNat)
  else if 'a' ≤ c ∧ c ≤ 'f' then some (c.toNat - 'a'.toNat + 10)
  else if 'A' ≤ c ∧ c ≤ 'F' then some (c.toNat - 'A'.toNat + 10)
  else none

/-- The character denoted by a single-character JSON string escape `\e`. -/
def escChar (e : Char) : Option Char :=
  if e = '"' then some '"'
  else if e = '\\' then some '\\'
  else if e = '/' then some '/'
  else if e = 'b' then some (Char.ofNat 8)
  else if e = 'f' then some (Char.ofNat 12)
  else if e = 'n' then some '\n'
  else if e = 'r' then some '\r'
  else if e = 't' then some '\t'
  else none

/-- Body of a JSON string literal after its opening quote: the decoded
characters and the input following the closing quote.  Raw control characters
are rejected, escapes are decoded; a `\uXXXX` escape denotes the scalar value
of its four hex digits (surrogate pairing of `JSON.parse` is not reproduced:
the panel's data flow never inspects such characters). -/
def parseStringBody (fuel : Nat) : List Char → Option (List Char × List Char)
  | [] => none
  | c :: cs =>
    match fuel with
    | 0 => none
    | f + 1 =>
      if c = '"' then some ([], cs)
      else if c = '\\' then
        match cs with
        | [] => none
        | e :: cs2 =>
          if e = 'u' then
            match cs2 with
            | h1 :: h2 :: h3 :: h4 :: cs3 =>
              match hexVal h1, hexVal h2, hexVal h3, hexVal h4 with
              | some a, some b, some c2, some d =>
                (parseStringBody f cs3).map
                  (fun r => (Char.ofNat (((a * 16 + b) * 16 + c2) * 16 + d) :: r.1, r.2))
              | _, _, _, _ => none
            | _ => none
          else
            match escChar e with
            | some d => (parseStringBody f cs2).map (fun r => (d :: r.1, r.2))
            | none => none
      else if c.toNat < 32 then none
      else (parseStringBody f cs).map (fun r => (c :: r.1, r.2))

/-- Longest digit run at the head of the input, and the rest. -/
def spanDigits : List Char → List Char × List Char
  | [] => ([], [])
  | c :: cs =>
    if c.isDigit then
      let r := spanDigits cs
      (c :: r.1, r.2)
    else ([], c :: cs)

/-- Integer part of a JSON number: `0`, or a nonzero digit followed by digits
(JSON forbids other leading zeros). -/
def parseIntPart : List Char → Option (List Char × List Char)
  | [] => none
  | '0' :: cs => some (['0'], cs)
  | c :: cs =>
    if c.isDigit then
      let r := spanDigits (c :: cs)
      some (r.1, r.2)
    else none

/-- Optional fraction part of a JSON number (`.` followed by 1+ digits). -/
def parseFracPart (cs : List Char) : Option (List Char × List Char) :=
  match cs with
  | '.' :: rest =>
    let d := spanDigits rest
    if d.1.isEmpty then none else some ('.' :: d.1, d.2)
  | _ => some ([], cs)

/-- Optional exponent part of a JSON number (`e`/`E`, optional sign, digits). -/
def parseExpPart (cs : List Char) : Option (List Char × List Char) :=
  match cs with
  | [] => some ([], [])
  | c :: rest =>
    if c = 'e' ∨ c = 'E' then
      let signAndRest : List Char × List Char :=
        match rest with
        | s :: r2 => if s = '+' ∨ s = '-' then ([s], r2) else ([], rest)
        | [] => ([], rest)
      let d := spanDigits signAndRest.2
      if d.1.isEmpty then none else some (c :: (signAndRest.1 ++ d.1), d.2)
    else some ([], c :: rest)

/-- A complete JSON number token; returns its lexeme and the rest of the
input. -/
def parseNumberToken (cs : List Char) : Option (List Char × List Char) :=
  let signAndRest : List Char × List Char :=
    match cs with
    | '-' :: rest => (['-'], rest)
    | _ => ([], cs)
  match parseIntPart signAndRest.2 with
  | none => none
  | some (ip, cs2) =>
    match parseFracPart cs2 with
    | none => none
    | some (fp, cs3) =>
      match parseExpPart cs3 with
      | none => none
      | some (ep, cs4) => some (signAndRest.1 ++ ip ++ fp ++ ep, cs4)

mutual

/-- One JSON value (after optional leading whitespace) and the rest of the
input.  Fuel-driven so that totality is structural; `JSON.parse` supplies
ample fuel. -/
def parseValue (fuel : Nat) (cs : List Char) : Option (JSVal × List Char) :=
  match fuel with
  | 0 => none
  | f + 1 =>
    match skipWs cs with
    | [] => none
    | c :: rest =>
      if c = '"' then
        (parseStringBody f rest).map (fun r => (JSVal.str (String.mk r.1), r.2))
      else if c = '{' then
        match skipWs rest with
        | '}' :: rest2 => some (JSVal.obj [], rest2)
        | rest1 => (parseMembers f rest1).map (fun r => (JSVal.obj r.1, r.2))
      else if c = '[' then
        match skipWs rest with
        | ']' :: rest2 => some (JSVal.arr [], rest2)
        | rest1 => (parseElems f rest1).map (fun r => (JSVal.arr r.1, r.2))
      else if c = 't' then
        match rest with
        | 'r' :: 'u' :: 'e' :: rest2 => some (JSVal.bool true, rest2)
        | _ => none
      else if c = 'f' then
        match rest with
        | 'a' :: 'l' :: 's' :: 'e' :: rest2 => some (JSVal.bool false, rest2)
        | _ => none
      else if c = 'n' then
        match rest with
        | 'u' :: 'l' :: 'l' :: rest2 => some (JSVal.null, rest2)
        | _ => none
      else
        (parseNumberToken (c :: rest)).map (fun r => (JSVal.num (String.mk r.1), r.2))

/-- Comma-separated array elements up to and including the closing `]`. -/
def parseElems (fuel : Nat) (cs : List Char) : Option (List JSVal × List Char) :=
  match fuel with
  | 0 => none
  | f + 1 =>
    match parseValue f cs with
    | none => none
    | some (v, rest) =>
      match skipWs rest with
      | ',' :: rest2 => (parseElems f rest2).map (fun r => (v :: r.1, r.2))
      | ']' :: rest2 => some ([v], rest2)
      | _ => none

/-- Comma-separated object members up to and including the closing brace. -/
def parseMembers (fuel : Nat) (cs : List Char) :
    Option (List (String × JSVal) × List Char) :=
  match fuel with
  | 0 => none
  | f + 1 =>
    match skipWs cs with
    | '"' :: rest =>
      match parseStringBody f rest with
      | none => none
      | some (keyChars, rest1) =>
        match skipWs rest1 with
        | ':' :: rest2 =>
          match parseValue f rest2 with
          | none => none
          | some (v, rest3) =>
            match skipWs rest3 with
            | ',' :: rest4 =>
              (parseMembers f rest4).map
                (fun r => ((String.mk keyChars, v) :: r.1, r.2))
            | '}' :: rest4 => some ([(String.mk keyChars, v)], rest4)
            | _ => none
        | _ => none
    | _ => none

end

/-- Model of the JavaScript builtin `JSON.parse`: parse one value, allow
trailing whitespace, reject anything else; an exception becomes `none`. -/
def JSON.parse (s : String) : Option JSVal :=
  match parseValue (s.data.length + s.data.length + 2) s.data with
  | some (v, rest) => if skipWs rest = [] then some v else none
  | none => none

/-- Model of `String.prototype.startsWith` (and of Lean's own
`String.startsWith`): the pattern's characters are a prefix of the string's. -/
def JSString.startsWith (s pattern : String) : Bool :=
  pattern.data.isPrefixOf s.data

/-- `WebStorageExplorer.tryParseJSON` (options.js:682-696): only strings whose
first character is a brace, a bracket or a quote are handed to `JSON.parse`;
anything else — and any parse failure — yields `null` (here `none`). -/
def tryParseJSON (strJSON : String) : Option JSVal :=
  if ¬ JSString.startsWith strJSON "\x7b" ∧ ¬ JSString.startsWith strJSON "[" ∧
      ¬ JSString.startsWith strJSON "\"" then
    none
  else
    JSON.parse strJSON

/-- `WebStorageExplorer.guessType` (options.js:705-714): `null` first, then
`Array.isArray`, then `typeof` object / boolean / number / string, with
`"other"` as the defensive fallback (reached only by values, such as
`undefined`, that are none of the six JSON shapes). -/
def guessType : JSVal → String
  | .null => "null"
  | .arr _ => "array"
  | .obj _ => "object"
  | .bool _ => "boolean"
  | .num _ => "number"
  | .str _ => "string"
  | .undefined => "other"

/-- The value stored for one raw string: `tryParseJSON(rawValue) ?? rawValue`
(options.js:281-282). -/
def parsedValue (rawValue : String) : JSVal :=
  (tryParseJSON rawValue).getD (JSVal.str rawValue)

/-- Modelled from the spec: the structural kind of a JSON value (`object`,
`array`, `string`, `number`, `boolean`, `null`), against which the code's
`guessType` classification is compared.  `undefined` is not a JSON value and
is given the off-grammar kind `"undefined"`. -/
def structuralKind : JSVal → String
  | .obj _ => "object"
  | .arr _ => "array"
  | .str _ => "string"
  | .num _ => "number"
  | .bool _ => "boolean"
  | .null => "null"
  | .undefined => "undefined"

/-- Does a raw string begin with one of the three characters for which
`tryParseJSON` attempts a JSON parse? -/
def jsonStart (s : String) : Bool :=
  JSString.startsWith s "\x7b" || JSString.startsWith s "[" || JSString.startsWith s "\""

/-! ### `JSON.stringify` on strings, and the storage driver -/

/-- Lowercase hexadecimal digit for `n < 16`, as emitted in `\u00XX`. -/
def hexDigitChar (n : Nat) : Char :=
  if n < 10 then Char.ofNat ('0'.toNat + n) else Char.ofNat ('a'.toNat + n - 10)

/-- How `JSON.stringify` serialises one character of a string: quote and
backslash get a backslash escape, the five named control characters get their
short escapes, the remaining control characters become `\u00XX`, and every
other character stands for itself. -/
def escapeJSONChar (c : Char) : List Char :=
  if c = '"' then ['\\', '"']
  else if c = '\\' then ['\\', '\\']
  else if c = Char.ofNat 8 then ['\\', 'b']
  else if c = '\t' then ['\\', 't']
  else if c = '\n' then ['\\', 'n']
  else if c = Char.ofNat 12 then ['\\', 'f']
  else if c = '\r' then ['\\', 'r']
  else if c.toNat < 32 then
    ['\\', 'u', '0', '0', hexDigitChar (c.toNat / 16), hexDigitChar (c.toNat % 16)]
  else [c]

/-- Serialisation of a whole character list, character by character. -/
def escapeJSONList : List Char → List Char
  | [] => []
  | c :: cs => escapeJSONChar c ++ escapeJSONList cs

/-- Model of the JavaScript builtin `JSON.stringify` applied to a string:
a double-quoted literal with the body escaped. -/
def jsonStringifyString (s : String) : String :=
  String.mk ('"' :: (escapeJSONList s.data ++ ['"']))

/-- `StorageDriver.removeKey` (StorageDriver.js:62-66): the script evaluated
in the inspected page, with the key name embedded via `JSON.stringify`. -/
def StorageDriver.removeKeyScript (storageName keyName : String) : String :=
  storageName ++ ".removeItem(" ++ jsonStringifyString keyName ++ ");"

/-- The remote side of the host bridge: the two storages of the inspected
page (as the ordered key/value objects their JSON serialisation parses back
to — keys of a web storage are unique), plus whether evaluation over the
bridge fails (context gone, script threw). -/
structure RemoteEnv where
  ls : List (String × String)
  ss : List (String × String)
  evalFails : Bool

/-- One request sent through `StorageDriver._eval` to the host bridge. -/
inductive Request where
  | storagesInfo : Request
  | getStorage (name : String) : Request

/-- `StorageDriver.getStoragesInfo` (StorageDriver.js:34-39): item counts of
both storages; rejects iff the bridge fails. -/
def StorageDriver.getStoragesInfo (env : RemoteEnv) : Except Unit (Nat × Nat) :=
  if env.evalFails then Except.error () else Except.ok (env.ls.length, env.ss.length)

/-- `StorageDriver.getStorageByName` (StorageDriver.js:48-52): all key/value
pairs of the named storage.  The name is interpolated into the evaluated
script verbatim, so a name other than the two storage globals throws in the
page and the call rejects. -/
def StorageDriver.getStorageByName (env : RemoteEnv) (name : String) :
    Except Unit (List (String × String)) :=
  if env.evalFails then Except.error ()
  else if name = "localStorage" then Except.ok env.ls
  else if name = "sessionStorage" then Except.ok env.ss
  else Except.error ()

/-! ### The `WebStorageExplorer` controller -/

/-- Message shown in the panel's initial-text region.  The wall-clock load
time that the source interpolates into `loadedItems` is elided (it is not a
function of program state). -/
inductive PanelMsg where
  | loadedItems (count : Nat) : PanelMsg
  | storageEmpty (name : String) : PanelMsg
  | errorLoading (name : String) : PanelMsg

/-- One entry of the in-memory snapshot map (options.js:283-287). -/
structure Entry where
  value : JSVal
  len : Nat
  type : String

/-- `{ value: tryParseJSON(raw) ?? raw, len: raw.length, type: guessType(...) }`
as built in `_parseAndRenderStorage` (options.js:280-287). -/
def mkEntry (rawValue : String) : Entry :=
  { value := parsedValue rawValue
    len := rawValue.length
    type := guessType (parsedValue rawValue) }

/-- The snapshot map built from the fetched key/value pairs by the
`keyList.forEach` loop of `_parseAndRenderStorage` (options.js:279-288). -/
def storageEntries (pairs : List (String × String)) : List (String × Entry) :=
  pairs.map (fun kv => (kv.1, mkEntry kv.2))

/-- The `WebStorageExplorer` instance state together with the parts of the
rendering surface the core writes: the key-list region is modelled by the
ordered `data-key` attributes it renders (`renderedKeys`) and which one
carries the active class (`activeKey`); the value region by the displayed
value, the metadata strip by the `(type, length)` pair, and the initial-text
region by the message currently displayed (`none` = hidden). -/
@[ext]
structure ExplorerState where
  storage : List (String × Entry)
  keyList : List String
  currentStorageName : String
  lastShownKey : String
  lastShownKeyIndex : Int
  loadedByUpdate : Bool
  renderedKeys : List String
  activeKey : Option String
  valueView : Option JSVal
  valueInfo : Option (String × Nat)
  initialMsg : Option PanelMsg
  storageCounts : Option (Nat × Nat)
  jsonToolsHidden : Bool

/-- A freshly constructed `WebStorageExplorer` as given by the class field
initialisers (options.js:127-169), with an empty rendering surface. -/
def initialExplorerState : ExplorerState :=
  { storage := []
    keyList := []
    currentStorageName := "localStorage"
    lastShownKey := ""
    lastShownKeyIndex := -1
    loadedByUpdate := false
    renderedKeys := []
    activeKey := none
    valueView := none
    valueInfo := none
    initialMsg := none
    storageCounts := none
    jsonToolsHidden := true }

/-! ### The raw-interpolated `querySelector` of the reconciliation helpers -/

/-- Normalisation of one input character outside a CRLF pair (css-syntax
3.3): CR and FF become LF, NUL becomes U+FFFD. -/
def cssNormChar (c : Char) : Char :=
  if c = '\r' ∨ c = '\x0c' then '\n'
  else if c = '\x00' then '\uFFFD'
  else c

/-- CSS input preprocessing (css-syntax 3.3), applied by the browser before a
selector is tokenized: CRLF, lone CR and FF become LF, NUL becomes U+FFFD. -/
def cssPreprocess : List Char → List Char
  | [] => []
  | [c] => [cssNormChar c]
  | c1 :: c2 :: cs =>
    if c1 = '\r' ∧ c2 = '\n' then '\n' :: cssPreprocess cs
    else cssNormChar c1 :: cssPreprocess (c2 :: cs)

/-- Up to `n` further hexadecimal digits of a CSS hex escape. -/
def takeHexUpTo (n : Nat) (cs : List Char) : List Char × List Char :=
  match n, cs with
  | 0, cs => ([], cs)
  | _, [] => ([], [])
  | m + 1, c :: cs2 =>
    if (hexVal c).isSome then
      let r := takeHexUpTo m cs2
      (c :: r.1, r.2)
    else ([], c :: cs2)

/-- Numeric value of a run of hexadecimal digits. -/
def hexListVal (l : List Char) : Nat :=
  l.foldl (fun acc c => acc * 16 + (hexVal c).getD 0) 0

/-- The code point denoted by a CSS hex escape: zero, surrogates and
out-of-range values become U+FFFD (css-syntax 4.3.7). -/
def cssCodePoint (n : Nat) : Char :=
  if n = 0 ∨ (0xD800 ≤ n ∧ n ≤ 0xDFFF) ∨ 0x10FFFF < n then '\uFFFD'
  else Char.ofNat n

/-- A CSS hex escape starting at the digit `e`: up to five further digits,
after which one whitespace character is consumed if present. -/
def cssHexEscape (e : Char) (cs : List Char) : Char × List Char :=
  let r := takeHexUpTo 5 cs
  let rest :=
    match r.2 with
    | ' ' :: t => t
    | '\t' :: t => t
    | '\n' :: t => t
    | t => t
  (cssCodePoint (hexListVal (e :: r.1)), rest)

/-- Body of a double-quoted CSS string (css-syntax 4.3.5): the decoded
content and the input following the closing quote.  A raw newline is a bad
string, and an unterminated string leaves the enclosing attribute bracket
unclosed; both make the whole selector invalid (`none`). -/
def cssStringBody (fuel : Nat) : List Char → Option (List Char × List Char)
  | [] => none
  | c :: cs =>
    match fuel with
    | 0 => none
    | f + 1 =>
      if c = '"' then some ([], cs)
      else if c = '\n' then none
      else if c = '\\' then
        match cs with
        | [] => none
        | e :: cs2 =>
          if e = '\n' then cssStringBody f cs2
          else if (hexVal e).isSome then
            let r := cssHexEscape e cs2
            (cssStringBody f r.2).map (fun p => (r.1 :: p.1, p.2))
          else (cssStringBody f cs2).map (fun p => (e :: p.1, p.2))
      else (cssStringBody f cs).map (fun p => (c :: p.1, p.2))

/-- Model of `document.querySelector` over the rendered key list, for the
selector that `_tryToShowLastKey` and `_tryToSelectNextKey` build by raw
string interpolation (options.js:594-596 and 616-618) with no escaping of the
key.  After the fixed `.js-select-key[data-key="` prefix, the remaining input
`key"]` is preprocessed and read as a CSS string followed by `]`.  An invalid
selector — raw newline in the string, a premature quote, or an unterminated
string — throws a DOM `SyntaxError` (`Except.error`); otherwise the match, if
any, is the first rendered key equal to the *decoded* string content (for a
key containing backslash escapes this need not be the key itself). -/
def querySelectKey (renderedKeys : List String) (key : String) :
    Except Unit (Option String) :=
  let input := cssPreprocess key.data ++ ['"', ']']
  match cssStringBody (input.length + 1) input with
  | none => Except.error ()
  | some (content, rest) =>
    if rest = [']'] then
      Except.ok (if renderedKeys.contains (String.mk content)
                 then some (String.mk content) else none)
    else Except.error ()

/-- Keys on which the raw-interpolated selector denotes exactly the key
itself: no NUL, double quote, backslash, or newline-class character. -/
def selectorSafe (key : String) : Bool :=
  key.data.all fun c =>
    ¬(c = '\x00' ∨ c = '"' ∨ c = '\\' ∨ c = '\n' ∨ c = '\r' ∨ c = '\x0c')

namespace WebStorageExplorer

/-- `WebStorageExplorer.clear` (options.js:516-526): empty the snapshot map
and the rendered regions; reset the selection unless it is being kept for a
pending reconciliation. -/
def clear (shouldSaveLastShownKey : Bool) (s : ExplorerState) : ExplorerState :=
  { s with
    storage := []
    lastShownKey := if shouldSaveLastShownKey then s.lastShownKey else ""
    lastShownKeyIndex := if shouldSaveLastShownKey then s.lastShownKeyIndex else -1
    renderedKeys := []
    activeKey := none
    valueView := none
    valueInfo := none
    jsonToolsHidden := true }

/-- `WebStorageExplorer.showValueForKey` (options.js:533-555): display the
entry stored under `key`, if any, and record it as the last shown key. -/
def showValueForKey (key : String) (s : ExplorerState) : ExplorerState :=
  match s.storage.lookup key with
  | none => s
  | some data =>
    { s with
      initialMsg := none
      valueView := some data.value
      jsonToolsHidden := if data.type = "object" ∨ data.type = "array" then false else true
      lastShownKey := key
      valueInfo := some (data.type, data.len) }

/-- `WebStorageExplorer._tryToShowLastKey` (options.js:592-600): re-show the
last shown key, then query the rendered list for its item with the
raw-interpolated selector and mark the found item (if any) active.  The
returned flag records whether the `querySelector` call threw (an invalid
selector), which the caller propagates to `retrieveStorage`'s catch. -/
def tryToShowLastKey (s : ExplorerState) : ExplorerState × Bool :=
  let s1 := showValueForKey s.lastShownKey s
  match querySelectKey s1.renderedKeys s.lastShownKey with
  | Except.error _ => (s1, true)
  | Except.ok none => (s1, false)
  | Except.ok (some k) => ({ s1 with activeKey := some k }, false)

/-- JavaScript array indexing `keyList[i]`: `undefined` (`none`) outside the
bounds, in particular for every negative index. -/
def jsIndex (l : List String) (i : Int) : Option String :=
  if 0 ≤ i then l[i.toNat]? else none

/-- `WebStorageExplorer._tryToSelectNextKey` (options.js:607-624): when an
index was recorded and keys exist, clamp the index with `Math.min` and show
the key found there.  `if (key)` is the JavaScript truthiness test, so both a
missing key (`undefined`) and the empty-string key are skipped.  As in
`_tryToShowLastKey`, the active marking goes through the raw-interpolated
`querySelector`, whose possible throw is returned as a flag. -/
def tryToSelectNextKey (s : ExplorerState) : ExplorerState × Bool :=
  if s.lastShownKeyIndex ≠ -1 ∧ s.keyList.length ≠ 0 then
    let i : Int := min s.lastShownKeyIndex ((s.keyList.length : Int) - 1)
    let s1 := { s with lastShownKeyIndex := i }
    match jsIndex s1.keyList i with
    | some key =>
      if key = "" then (s1, false)
      else
        let s2 := showValueForKey key s1
        match querySelectKey s2.renderedKeys key with
        | Except.error _ => (s2, true)
        | Except.ok none => (s2, false)
        | Except.ok (some k) => ({ s2 with activeKey := some k }, false)
    | none => (s1, false)
  else (s, false)

/-- `WebStorageExplorer._checkForLastKey` (options.js:576-585): after a
refresh caused by an explicit update, reconcile the selection — re-show the
previous key when it is still present (the guard is JavaScript truthiness of
`lastShownKey` and `storage.has`), otherwise fall back to index-based
selection.  A `querySelector` throw in either helper propagates. -/
def checkForLastKey (s : ExplorerState) : ExplorerState × Bool :=
  if s.loadedByUpdate then
    let s1 := { s with loadedByUpdate := false }
    if s1.lastShownKey ≠ "" ∧ (s1.storage.lookup s1.lastShownKey).isSome then
      tryToShowLastKey s1
    else
      tryToSelectNextKey s1
  else (s, false)

/-- `WebStorageExplorer._showInitialText` (options.js:632-645): when nothing
is shown, display the load summary or the empty-storage message; otherwise
hide the region.  The load-time figure is elided from `loadedItems`. -/
def showInitialText (s : ExplorerState) : ExplorerState :=
  if s.lastShownKey = "" then
    if s.storage.length ≠ 0 then
      { s with initialMsg := some (PanelMsg.loadedItems s.storage.length) }
    else
      { s with initialMsg := some (PanelMsg.storageEmpty s.currentStorageName) }
  else
    { s with initialMsg := none }

/-- `WebStorageExplorer._renderStorageKeys` (options.js:305-327): rebuild the
key-list markup from `keyList`.  The markup is modelled by the ordered
`data-key` attributes (HTML attribute escaping round-trips through the DOM);
freshly assigned markup carries no active class. -/
def renderStorageKeys (s : ExplorerState) : ExplorerState :=
  { s with renderedKeys := s.keyList, activeKey := none }

/-- `WebStorageExplorer._parseAndRenderStorage` (options.js:274-298): replace
the snapshot and key list, rebuild entries and markup (or clear everything
when the fetched storage is empty), then show the initial text and reconcile
the selection.  `_updateFooterPosition` is pure layout and is not modelled.
`_checkForLastKey` is the last statement, so a `querySelector` throw inside
it (the returned flag) skips nothing here and reaches the caller's catch with
all earlier mutations in place. -/
def parseAndRenderStorage (pairs : List (String × String)) (s : ExplorerState) :
    ExplorerState × Bool :=
  let s1 := { s with storage := [], keyList := pairs.map Prod.fst }
  let s2 :=
    if s1.keyList.length ≠ 0 then
      renderStorageKeys { s1 with storage := storageEntries pairs }
    else
      clear false s1
  checkForLastKey (showInitialText s2)

/-- The storage-name normalisation of `retrieveStorage` (options.js:245-249). -/
def normalizeName (storageType : String) : String :=
  if storageType = "localStorage" ∨ storageType = "sessionStorage" then storageType
  else "localStorage"

/-- The pairs held by the named remote storage (the successful result of
`StorageDriver.getStorageByName` for a recognised name). -/
def storageFor (env : RemoteEnv) (name : String) : List (String × String) :=
  if name = "localStorage" then env.ls
  else if name = "sessionStorage" then env.ss
  else []

/-- `WebStorageExplorer.retrieveStorage` (options.js:244-265): normalise the
requested storage name, ask the driver for counts and the full snapshot
(both requests are issued), then either render the result or show the
error-loading message, leaving everything else as it was.  The issued
requests are returned alongside the state.  The catch handles both a
rejected bridge evaluation and a `querySelector` throw escaping
`_parseAndRenderStorage`; mutations made before the throw persist. -/
def retrieveStorage (env : RemoteEnv) (storageType : String) (s : ExplorerState) :
    ExplorerState × List Request :=
  let name := normalizeName storageType
  let s1 := { s with currentStorageName := name }
  let reqs := [Request.storagesInfo, Request.getStorage name]
  match StorageDriver.getStoragesInfo env, StorageDriver.getStorageByName env name with
  | Except.ok info, Except.ok pairs =>
    let r := parseAndRenderStorage pairs { s1 with storageCounts := some info }
    ((if r.2 then { r.1 with initialMsg := some (PanelMsg.errorLoading name) }
      else r.1), reqs)
  | _, _ =>
    ({ s1 with initialMsg := some (PanelMsg.errorLoading name) }, reqs)

/-- `WebStorageExplorer.update` (options.js:496-499): flag the refresh as an
explicit update, then retrieve the current storage. -/
def update (env : RemoteEnv) (s : ExplorerState) : ExplorerState × List Request :=
  retrieveStorage env s.currentStorageName { s with loadedByUpdate := true }

/-- The reload-button handler (options.js:382-386): clear while keeping the
selection for reconciliation, then update. -/
def reloadClick (env : RemoteEnv) (s : ExplorerState) : ExplorerState × List Request :=
  update env (clear true s)

/-- The storage-select change handler (options.js:376-380): clear (resetting
the selection), redundantly blank the last shown key, then retrieve the newly
selected storage. -/
def selectStorageChange (env : RemoteEnv) (newValue : String) (s : ExplorerState) :
    ExplorerState × List Request :=
  let s1 := clear false s
  retrieveStorage env newValue { s1 with lastShownKey := "" }

end WebStorageExplorer

/-! ### Helper lemmas -/

/-- Whatever `parseValue` returns, the code's classification agrees with the
structural kind: the parser only builds the six JSON shapes. -/
theorem parseValue_kind (fuel : Nat) (cs : List Char) (r : JSVal × List Char)
    (h : parseValue fuel cs = some r) : guessType r.1 = structuralKind r.1 := by
  match fuel with
  | 0 => simp [parseValue] at h
  | f + 1 =>
    rw [parseValue] at h
    split at h
    · exact absurd h (by simp)
    · split_ifs at h
      · obtain ⟨a, -, rfl⟩ := Option.map_eq_some'.mp h
        rfl
      · split at h
        · cases h
          rfl
        · obtain ⟨a, -, rfl⟩ := Option.map_eq_some'.mp h
          rfl
      · split at h
        · cases h
          rfl
        · obtain ⟨a, -, rfl⟩ := Option.map_eq_some'.mp h
          rfl
      · split at h
        · cases h
          rfl
        · exact absurd h (by simp)
      · split at h
        · cases h
          rfl
        · exact absurd h (by simp)
      · split at h
        · cases h
          rfl
        · exact absurd h (by simp)
      · obtain ⟨a, -, rfl⟩ := Option.map_eq_some'.mp h
        rfl

/-- Lifting of `parseValue_kind` to `JSON.parse`. -/
theorem JSON.parse_kind (s : String) (j : JSVal) (h : JSON.parse s = some j) :
    guessType j = structuralKind j := by
  rw [JSON.parse] at h
  split at h
  · rename_i v rest heq
    split at h
    · cases h
      exact parseValue_kind _ _ _ heq
    · exact absurd h (by simp)
  · exact absurd h (by simp)

/-- `tryParseJSON` parses exactly when the first character passes the
pre-filter. -/
theorem tryParseJSON_eq (s : String) :
    tryParseJSON s = if jsonStart s then JSON.parse s else none := by
  unfold tryParseJSON jsonStart
  by_cases h1 : JSString.startsWith s "\x7b" <;>
    by_cases h2 : JSString.startsWith s "[" <;>
    by_cases h3 : JSString.startsWith s "\"" <;> simp [h1, h2, h3]

/-! ### Claim C1 -/

/-- C1.  For every raw string `v`: if `v` begins with a brace, a bracket or a
quote and is valid JSON, the stored value is the JSON-decoded structure and
its classification is the structural kind of that JSON value; if `v` begins
with one of those characters but is invalid JSON, the classification is
`"string"` and the stored value is `v` itself; and if `v` does not begin with
any of those characters, the classification is `"string"` and the stored
value is `v`, even when `v` is a syntactically valid JSON number or boolean. -/
theorem C1_type_classification (v : String) :
    (jsonStart v = true → ∀ j : JSVal, JSON.parse v = some j →
      parsedValue v = j ∧ guessType (parsedValue v) = structuralKind j) ∧
    (jsonStart v = true → JSON.parse v = none →
      parsedValue v = JSVal.str v ∧ guessType (parsedValue v) = "string") ∧
    (jsonStart v = false →
      parsedValue v = JSVal.str v ∧ guessType (parsedValue v) = "string") := by
  refine ⟨fun hs j hp => ?_, fun hs hp => ?_, fun hs => ?_⟩
  · have hv : parsedValue v = j := by
      rw [parsedValue, tryParseJSON_eq, hs]
      simp [hp]
    exact ⟨hv, by rw [hv]; exact JSON.parse_kind v j hp⟩
  · have hv : parsedValue v = JSVal.str v := by
      rw [parsedValue, tryParseJSON_eq, hs]
      simp [hp]
    exact ⟨hv, by rw [hv]; rfl⟩
  · have hv : parsedValue v = JSVal.str v := by
      rw [parsedValue, tryParseJSON_eq, hs]
      simp
    exact ⟨hv, by rw [hv]; rfl⟩

/-- Witness for C1, at the array input `"[1]"` (all three hypotheses of the
first conjunct discharged concretely) and the bare-number input `"123"`
(which is valid JSON yet classified `"string"` by the pre-filter). -/
theorem C1_type_classification_witness :
    (jsonStart "[1]" = true ∧ JSON.parse "[1]" = some (JSVal.arr [JSVal.num "1"]) ∧
      parsedValue "[1]" = JSVal.arr [JSVal.num "1"] ∧
      guessType (parsedValue "[1]") = "array") ∧
    (jsonStart "123" = false ∧ parsedValue "123" = JSVal.str "123" ∧
      guessType (parsedValue "123") = "string") := by
  have h1 := (C1_type_classification "[1]").1 (by decide) (JSVal.arr [JSVal.num "1"]) rfl
  have h2 := (C1_type_classification "123").2.2 (by decide)
  exact ⟨⟨by decide, rfl, h1.1, h1.2.trans rfl⟩, ⟨by decide, h2.1, h2.2⟩⟩

/-! ### Claim C9 -/

/-- C9.  Every value produced by `tryParseJSON(raw) ?? raw` for a raw string
`raw` is classified by `guessType` as one of the six JSON type tags; the
defensive `"other"` fallback is unreachable on this data flow. -/
theorem C9_other_unreachable (raw : String) :
    guessType (parsedValue raw) ≠ "other" ∧
      guessType (parsedValue raw) ∈
        ["object", "array", "string", "number", "boolean", "null"] := by
  rcases htp : tryParseJSON raw with - | j
  · have hv : parsedValue raw = JSVal.str raw := by rw [parsedValue, htp]; rfl
    rw [hv]
    exact ⟨by simp [guessType], by simp [guessType]⟩
  · have hv : parsedValue raw = j := by rw [parsedValue, htp]; rfl
    have hk : guessType j = structuralKind j := by
      rw [tryParseJSON_eq] at htp
      split at htp
      · exact JSON.parse_kind raw j htp
      · exact absurd htp (by simp)
    rw [hv]
    cases j <;> simp_all [guessType, structuralKind]

/-! ### Round-trip of `JSON.stringify` string escaping (for C10) -/

/-- The hex digits emitted for a control character decode to their value. -/
theorem hexVal_hexDigitChar : ∀ m : Nat, m < 16 → hexVal (hexDigitChar m) = some m := by
  decide

/-- Escaping never drops characters. -/
theorem length_le_escapeJSONList (l : List Char) :
    l.length ≤ (escapeJSONList l).length := by
  induction l with
  | nil => simp [escapeJSONList]
  | cons c cs ih =>
    have hc : 1 ≤ (escapeJSONChar c).length := by
      unfold escapeJSONChar
      split_ifs <;> simp
    calc (c :: cs).length = 1 + cs.length := by simp [Nat.add_comm]
      _ ≤ (escapeJSONChar c).length + (escapeJSONList cs).length :=
          Nat.add_le_add hc ih
      _ = (escapeJSONList (c :: cs)).length := by
          rw [escapeJSONList]
          simp

/-- Reading back an escaped character list: the parser's string reader is a
left inverse of `JSON.stringify` escaping, given enough fuel. -/
theorem parseStringBody_escape (l : List Char) :
    ∀ (fuel : Nat) (rest : List Char), l.length < fuel →
      parseStringBody fuel (escapeJSONList l ++ '"' :: rest) = some (l, rest) := by
  induction l with
  | nil =>
    intro fuel rest h
    obtain ⟨f, rfl⟩ : ∃ f, fuel = f + 1 := ⟨fuel - 1, by omega⟩
    simp [escapeJSONList, parseStringBody]
  | cons c cs ih =>
    intro fuel rest h
    obtain ⟨f, rfl⟩ : ∃ f, fuel = f + 1 := ⟨fuel - 1, by omega⟩
    have hf : cs.length < f := by
      simp only [List.length_cons] at h
      omega
    rw [escapeJSONList]
    rw [escapeJSONChar]
    split_ifs with h1 h2 h3 h4 h5 h6 h7 h8
    · subst h1
      simp [parseStringBody, escChar, ih f rest hf]
    · subst h2
      simp [parseStringBody, escChar, ih f rest hf]
    · subst h3
      simp [parseStringBody, escChar, ih f rest hf]
    · subst h4
      simp [parseStringBody, escChar, ih f rest hf]
    · subst h5
      simp [parseStringBody, escChar, ih f rest hf]
    · subst h6
      simp [parseStringBody, escChar, ih f rest hf]
    · subst h7
      simp [parseStringBody, escChar, ih f rest hf]
    · have hd : c.toNat / 16 < 16 := by omega
      have hm : c.toNat % 16 < 16 := Nat.mod_lt _ (by omega)
      have hv0 : hexVal '0' = some 0 := by decide
      have hn : ((0 * 16 + 0) * 16 + c.toNat / 16) * 16 + c.toNat % 16 = c.toNat := by
        omega
      simp only [List.cons_append, List.nil_append]
      rw [parseStringBody]
      simp [hv0, hexVal_hexDigitChar _ hd, hexVal_hexDigitChar _ hm, ih f rest hf]
      rw [Nat.div_add_mod', Char.ofNat_toNat]
    · simp only [List.cons_append]
      rw [parseStringBody.eq_def]
      simp [h1, h2, h8, ih f rest hf]

/-- Parsing a stringified string recovers exactly the original string. -/
theorem JSON.parse_stringify (s : String) :
    JSON.parse (jsonStringifyString s) = some (JSVal.str s) := by
  have hdata : (jsonStringifyString s).data
      = '"' :: (escapeJSONList s.data ++ ['"']) := rfl
  rw [JSON.parse, hdata]
  have hlen : s.data.length <
      ('"' :: (escapeJSONList s.data ++ ['"'])).length +
        ('"' :: (escapeJSONList s.data ++ ['"'])).length + 1 := by
    have := length_le_escapeJSONList s.data
    simp only [List.length_cons, List.length_append]
    omega
  obtain ⟨f, hfuel⟩ : ∃ f,
      ('"' :: (escapeJSONList s.data ++ ['"'])).length +
        ('"' :: (escapeJSONList s.data ++ ['"'])).length + 2 = f + 1 :=
    ⟨_ + _ + 1, rfl⟩
  rw [hfuel]
  rw [parseValue]
  have hws : skipWs ('"' :: (escapeJSONList s.data ++ ['"']))
      = '"' :: (escapeJSONList s.data ++ ['"']) := by
    rw [skipWs]
    simp
  rw [hws]
  have hbody : parseStringBody f (escapeJSONList s.data ++ '"' :: []) =
      some (s.data, []) := by
    apply parseStringBody_escape
    omega
  simp [hbody, skipWs]

/-! ### Claim C10 -/

/-- C10.  For every storage name and key name — keys with quotes, backslashes
or other special characters included — the removal script built by
`StorageDriver.removeKey` embeds the key as a JSON string literal that
denotes exactly the given key: parsing the embedded literal back yields the
key, so the script requests removal of precisely that key. -/
theorem C10_removeKey_script (storageName keyName : String) :
    ∃ lit : String,
      StorageDriver.removeKeyScript storageName keyName
        = storageName ++ ".removeItem(" ++ lit ++ ");" ∧
      JSON.parse lit = some (JSVal.str keyName) :=
  ⟨jsonStringifyString keyName, rfl, JSON.parse_stringify keyName⟩

/-! ### Frame lemmas for the controller operations -/

namespace WebStorageExplorer

@[simp] theorem storage_showInitialText (s : ExplorerState) :
    (showInitialText s).storage = s.storage := by
  unfold showInitialText
  split_ifs <;> rfl

@[simp] theorem keyList_showInitialText (s : ExplorerState) :
    (showInitialText s).keyList = s.keyList := by
  unfold showInitialText
  split_ifs <;> rfl

@[simp] theorem currentStorageName_showInitialText (s : ExplorerState) :
    (showInitialText s).currentStorageName = s.currentStorageName := by
  unfold showInitialText
  split_ifs <;> rfl

@[simp] theorem lastShownKey_showInitialText (s : ExplorerState) :
    (showInitialText s).lastShownKey = s.lastShownKey := by
  unfold showInitialText
  split_ifs <;> rfl

@[simp] theorem lastShownKeyIndex_showInitialText (s : ExplorerState) :
    (showInitialText s).lastShownKeyIndex = s.lastShownKeyIndex := by
  unfold showInitialText
  split_ifs <;> rfl

@[simp] theorem loadedByUpdate_showInitialText (s : ExplorerState) :
    (showInitialText s).loadedByUpdate = s.loadedByUpdate := by
  unfold showInitialText
  split_ifs <;> rfl

@[simp] theorem renderedKeys_showInitialText (s : ExplorerState) :
    (showInitialText s).renderedKeys = s.renderedKeys := by
  unfold showInitialText
  split_ifs <;> rfl

@[simp] theorem activeKey_showInitialText (s : ExplorerState) :
    (showInitialText s).activeKey = s.activeKey := by
  unfold showInitialText
  split_ifs <;> rfl

@[simp] theorem valueView_showInitialText (s : ExplorerState) :
    (showInitialText s).valueView = s.valueView := by
  unfold showInitialText
  split_ifs <;> rfl

@[simp] theorem valueInfo_showInitialText (s : ExplorerState) :
    (showInitialText s).valueInfo = s.valueInfo := by
  unfold showInitialText
  split_ifs <;> rfl

@[simp] theorem storageCounts_showInitialText (s : ExplorerState) :
    (showInitialText s).storageCounts = s.storageCounts := by
  unfold showInitialText
  split_ifs <;> rfl

@[simp] theorem jsonToolsHidden_showInitialText (s : ExplorerState) :
    (showInitialText s).jsonToolsHidden = s.jsonToolsHidden := by
  unfold showInitialText
  split_ifs <;> rfl

@[simp] theorem storage_showValueForKey (key : String) (s : ExplorerState) :
    (showValueForKey key s).storage = s.storage := by
  unfold showValueForKey
  cases s.storage.lookup key <;> rfl

@[simp] theorem keyList_showValueForKey (key : String) (s : ExplorerState) :
    (showValueForKey key s).keyList = s.keyList := by
  unfold showValueForKey
  cases s.storage.lookup key <;> rfl

@[simp] theorem currentStorageName_showValueForKey (key : String) (s : ExplorerState) :
    (showValueForKey key s).currentStorageName = s.currentStorageName := by
  unfold showValueForKey
  cases s.storage.lookup key <;> rfl

@[simp] theorem lastShownKeyIndex_showValueForKey (key : String) (s : ExplorerState) :
    (showValueForKey key s).lastShownKeyIndex = s.lastShownKeyIndex := by
  unfold showValueForKey
  cases s.storage.lookup key <;> rfl

@[simp] theorem loadedByUpdate_showValueForKey (key : String) (s : ExplorerState) :
    (showValueForKey key s).loadedByUpdate = s.loadedByUpdate := by
  unfold showValueForKey
  cases s.storage.lookup key <;> rfl

@[simp] theorem renderedKeys_showValueForKey (key : String) (s : ExplorerState) :
    (showValueForKey key s).renderedKeys = s.renderedKeys := by
  unfold showValueForKey
  cases s.storage.lookup key <;> rfl

@[simp] theorem activeKey_showValueForKey (key : String) (s : ExplorerState) :
    (showValueForKey key s).activeKey = s.activeKey := by
  unfold showValueForKey
  cases s.storage.lookup key <;> rfl

@[simp] theorem storageCounts_showValueForKey (key : String) (s : ExplorerState) :
    (showValueForKey key s).storageCounts = s.storageCounts := by
  unfold showValueForKey
  cases s.storage.lookup key <;> rfl

@[simp] theorem storage_tryToShowLastKey (s : ExplorerState) :
    (tryToShowLastKey s).1.storage = s.storage := by
  unfold tryToShowLastKey
  dsimp only
  split <;> simp

@[simp] theorem keyList_tryToShowLastKey (s : ExplorerState) :
    (tryToShowLastKey s).1.keyList = s.keyList := by
  unfold tryToShowLastKey
  dsimp only
  split <;> simp

@[simp] theorem currentStorageName_tryToShowLastKey (s : ExplorerState) :
    (tryToShowLastKey s).1.currentStorageName = s.currentStorageName := by
  unfold tryToShowLastKey
  dsimp only
  split <;> simp

@[simp] theorem lastShownKeyIndex_tryToShowLastKey (s : ExplorerState) :
    (tryToShowLastKey s).1.lastShownKeyIndex = s.lastShownKeyIndex := by
  unfold tryToShowLastKey
  dsimp only
  split <;> simp

@[simp] theorem loadedByUpdate_tryToShowLastKey (s : ExplorerState) :
    (tryToShowLastKey s).1.loadedByUpdate = s.loadedByUpdate := by
  unfold tryToShowLastKey
  dsimp only
  split <;> simp

@[simp] theorem renderedKeys_tryToShowLastKey (s : ExplorerState) :
    (tryToShowLastKey s).1.renderedKeys = s.renderedKeys := by
  unfold tryToShowLastKey
  dsimp only
  split <;> simp

@[simp] theorem storageCounts_tryToShowLastKey (s : ExplorerState) :
    (tryToShowLastKey s).1.storageCounts = s.storageCounts := by
  unfold tryToShowLastKey
  dsimp only
  split <;> simp

@[simp] theorem storage_tryToSelectNextKey (s : ExplorerState) :
    (tryToSelectNextKey s).1.storage = s.storage := by
  unfold tryToSelectNextKey
  dsimp only
  split_ifs <;> try rfl
  split
  · split_ifs <;> try rfl
    split <;> simp
  · rfl

@[simp] theorem keyList_tryToSelectNextKey (s : ExplorerState) :
    (tryToSelectNextKey s).1.keyList = s.keyList := by
  unfold tryToSelectNextKey
  dsimp only
  split_ifs <;> try rfl
  split
  · split_ifs <;> try rfl
    split <;> simp
  · rfl

@[simp] theorem currentStorageName_tryToSelectNextKey (s : ExplorerState) :
    (tryToSelectNextKey s).1.currentStorageName = s.currentStorageName := by
  unfold tryToSelectNextKey
  dsimp only
  split_ifs <;> try rfl
  split
  · split_ifs <;> try rfl
    split <;> simp
  · rfl

@[simp] theorem loadedByUpdate_tryToSelectNextKey (s : ExplorerState) :
    (tryToSelectNextKey s).1.loadedByUpdate = s.loadedByUpdate := by
  unfold tryToSelectNextKey
  dsimp only
  split_ifs <;> try rfl
  split
  · split_ifs <;> try rfl
    split <;> simp
  · rfl

@[simp] theorem renderedKeys_tryToSelectNextKey (s : ExplorerState) :
    (tryToSelectNextKey s).1.renderedKeys = s.renderedKeys := by
  unfold tryToSelectNextKey
  dsimp only
  split_ifs <;> try rfl
  split
  · split_ifs <;> try rfl
    split <;> simp
  · rfl

@[simp] theorem storageCounts_tryToSelectNextKey (s : ExplorerState) :
    (tryToSelectNextKey s).1.storageCounts = s.storageCounts := by
  unfold tryToSelectNextKey
  dsimp only
  split_ifs <;> try rfl
  split
  · split_ifs <;> try rfl
    split <;> simp
  · rfl

@[simp] theorem storage_checkForLastKey (s : ExplorerState) :
    (checkForLastKey s).1.storage = s.storage := by
  unfold checkForLastKey
  dsimp only
  split_ifs <;> simp

@[simp] theorem keyList_checkForLastKey (s : ExplorerState) :
    (checkForLastKey s).1.keyList = s.keyList := by
  unfold checkForLastKey
  dsimp only
  split_ifs <;> simp

@[simp] theorem currentStorageName_checkForLastKey (s : ExplorerState) :
    (checkForLastKey s).1.currentStorageName = s.currentStorageName := by
  unfold checkForLastKey
  dsimp only
  split_ifs <;> simp

@[simp] theorem renderedKeys_checkForLastKey (s : ExplorerState) :
    (checkForLastKey s).1.renderedKeys = s.renderedKeys := by
  unfold checkForLastKey
  dsimp only
  split_ifs <;> simp

@[simp] theorem storageCounts_checkForLastKey (s : ExplorerState) :
    (checkForLastKey s).1.storageCounts = s.storageCounts := by
  unfold checkForLastKey
  dsimp only
  split_ifs <;> simp

end WebStorageExplorer

/-- Looking a key up in the built snapshot map is looking it up in the
fetched pairs and building its entry. -/
theorem lookup_storageEntries (pairs : List (String × String)) (k : String) :
    (storageEntries pairs).lookup k = (pairs.lookup k).map (fun v => mkEntry v) := by
  induction pairs with
  | nil => rfl
  | cons p ps ih =>
    rcases p with ⟨a, b⟩
    simp only [storageEntries, List.map_cons] at ih ⊢
    cases h : (k == a) <;> simp [List.lookup_cons, h, ih]

/-- A key is among the fetched keys exactly when looking it up succeeds. -/
theorem contains_fst_eq_isSome_lookup (pairs : List (String × String)) (k : String) :
    ((pairs.map Prod.fst).contains k) = (pairs.lookup k).isSome := by
  induction pairs with
  | nil => rfl
  | cons p ps ih =>
    rcases p with ⟨a, b⟩
    rw [List.map_cons, List.contains_cons, List.lookup_cons]
    cases h : (k == a) <;>
      (simp only [h, Bool.false_or, Bool.true_or, ih]; try rfl)

/-- A successful JavaScript index read returns an element of the array. -/
theorem mem_of_jsIndex (l : List String) (i : Int) (k : String)
    (h : WebStorageExplorer.jsIndex l i = some k) : k ∈ l := by
  unfold WebStorageExplorer.jsIndex at h
  split_ifs at h
  exact List.getElem?_mem h

/-! ### Claim C8 -/

/-- C8.  `clear(shouldSaveLastShownKey)` empties the in-memory snapshot map
and the rendered key-list, value-view and metadata regions (and hides the
JSON-view tools); the selection is preserved exactly when
`shouldSaveLastShownKey` is true and reset to `("", -1)` otherwise; the key
list array, current storage name, update flag and storage counts are left
untouched. -/
theorem C8_clear_frame (shouldSaveLastShownKey : Bool) (s : ExplorerState) :
    (WebStorageExplorer.clear shouldSaveLastShownKey s).storage = [] ∧
    (WebStorageExplorer.clear shouldSaveLastShownKey s).renderedKeys = [] ∧
    (WebStorageExplorer.clear shouldSaveLastShownKey s).activeKey = none ∧
    (WebStorageExplorer.clear shouldSaveLastShownKey s).valueView = none ∧
    (WebStorageExplorer.clear shouldSaveLastShownKey s).valueInfo = none ∧
    (WebStorageExplorer.clear shouldSaveLastShownKey s).jsonToolsHidden = true ∧
    (WebStorageExplorer.clear shouldSaveLastShownKey s).lastShownKey
      = (if shouldSaveLastShownKey then s.lastShownKey else "") ∧
    (WebStorageExplorer.clear shouldSaveLastShownKey s).lastShownKeyIndex
      = (if shouldSaveLastShownKey then s.lastShownKeyIndex else -1) ∧
    (WebStorageExplorer.clear shouldSaveLastShownKey s).keyList = s.keyList ∧
    (WebStorageExplorer.clear shouldSaveLastShownKey s).currentStorageName
      = s.currentStorageName ∧
    (WebStorageExplorer.clear shouldSaveLastShownKey s).loadedByUpdate
      = s.loadedByUpdate ∧
    (WebStorageExplorer.clear shouldSaveLastShownKey s).initialMsg = s.initialMsg ∧
    (WebStorageExplorer.clear shouldSaveLastShownKey s).storageCounts
      = s.storageCounts := by
  cases shouldSaveLastShownKey <;> simp [WebStorageExplorer.clear]

/-! ### Claim C4 -/

/-- C4.  When the host bridge rejects, `retrieveStorage` leaves the rendered
key list, the snapshot map, the key list array, the selection and the value
view exactly as they were, displays the error-loading message for the
(normalised) storage it was fetching, and issues exactly one snapshot request
— no retry. -/
theorem C4_eval_failure (env : RemoteEnv) (storageType : String) (s : ExplorerState)
    (h : env.evalFails = true) :
    (WebStorageExplorer.retrieveStorage env storageType s).1.renderedKeys
      = s.renderedKeys ∧
    (WebStorageExplorer.retrieveStorage env storageType s).1.activeKey = s.activeKey ∧
    (WebStorageExplorer.retrieveStorage env storageType s).1.storage = s.storage ∧
    (WebStorageExplorer.retrieveStorage env storageType s).1.keyList = s.keyList ∧
    (WebStorageExplorer.retrieveStorage env storageType s).1.lastShownKey
      = s.lastShownKey ∧
    (WebStorageExplorer.retrieveStorage env storageType s).1.lastShownKeyIndex
      = s.lastShownKeyIndex ∧
    (WebStorageExplorer.retrieveStorage env storageType s).1.valueView = s.valueView ∧
    (WebStorageExplorer.retrieveStorage env storageType s).1.initialMsg
      = some (PanelMsg.errorLoading
          (WebStorageExplorer.normalizeName storageType)) ∧
    (WebStorageExplorer.retrieveStorage env storageType s).2
      = [Request.storagesInfo,
         Request.getStorage (WebStorageExplorer.normalizeName storageType)] := by
  simp [WebStorageExplorer.retrieveStorage, StorageDriver.getStoragesInfo, h]

/-! ### Claim C7 -/

/-- C7.  Fetching with a storage name that is not `localStorage` or
`sessionStorage` behaves as a fetch of `localStorage`: the controller
normalises the name before asking the accessor, exactly one snapshot request
is issued and it names `localStorage`, and (when the bridge works) the fetch
populates the snapshot with that storage's key/value pairs. -/
theorem C7_unrecognized_defaults_to_local (env : RemoteEnv) (storageType : String)
    (s : ExplorerState)
    (h1 : storageType ≠ "localStorage") (h2 : storageType ≠ "sessionStorage")
    (h3 : env.evalFails = false) :
    (WebStorageExplorer.retrieveStorage env storageType s).1.currentStorageName
      = "localStorage" ∧
    (WebStorageExplorer.retrieveStorage env storageType s).2
      = [Request.storagesInfo, Request.getStorage "localStorage"] ∧
    (WebStorageExplorer.retrieveStorage env storageType s).1.storage
      = storageEntries env.ls ∧
    (WebStorageExplorer.retrieveStorage env storageType s).1.keyList
      = env.ls.map Prod.fst := by
  have hn : WebStorageExplorer.normalizeName storageType = "localStorage" := by
    unfold WebStorageExplorer.normalizeName
    simp [h1, h2]
  unfold WebStorageExplorer.retrieveStorage
  rw [hn]
  simp only [StorageDriver.getStoragesInfo, StorageDriver.getStorageByName, h3,
    Bool.false_eq_true, if_false, if_pos rfl]
  by_cases hls : env.ls = []
  · simp [WebStorageExplorer.parseAndRenderStorage, hls, WebStorageExplorer.clear,
      storageEntries, apply_ite]
  · have hlen : (env.ls.map Prod.fst).length ≠ 0 := by simpa using hls
    simp [WebStorageExplorer.parseAndRenderStorage, hlen, hls,
      WebStorageExplorer.renderStorageKeys, apply_ite]

/-- The normalised name is one of the two storage globals. -/
theorem normalizeName_eq_or (t : String) :
    WebStorageExplorer.normalizeName t = "localStorage" ∨
      WebStorageExplorer.normalizeName t = "sessionStorage" := by
  unfold WebStorageExplorer.normalizeName
  split_ifs with h
  · exact h
  · exact Or.inl rfl

/-- Normalising twice is normalising once. -/
theorem normalizeName_idem (t : String) :
    WebStorageExplorer.normalizeName (WebStorageExplorer.normalizeName t)
      = WebStorageExplorer.normalizeName t := by
  rcases normalizeName_eq_or t with h | h <;>
    rw [h] <;> rfl

/-- For a normalised name and a working bridge, the driver answers with that
storage's pairs. -/
theorem getStorageByName_normalizeName (env : RemoteEnv) (t : String)
    (h : env.evalFails = false) :
    StorageDriver.getStorageByName env (WebStorageExplorer.normalizeName t)
      = Except.ok (WebStorageExplorer.storageFor env (WebStorageExplorer.normalizeName t)) := by
  rcases normalizeName_eq_or t with hn | hn <;>
    rw [hn] <;>
    simp [StorageDriver.getStorageByName, WebStorageExplorer.storageFor, h]

/-! ### Claim C5 -/

/-- C5.  Switching the storage type from a state with a key selected clears
the selection before re-fetching — after the handler the last shown key is
empty, the recorded index is `-1` and no key-list entry is active, whatever
the fetch returned — and no reconciliation happens for that fetch; when the
newly selected storage is empty (and the bridge works) the empty-state
message for that storage is shown. -/
theorem C5_switch_clears_selection (env : RemoteEnv) (newValue : String)
    (s : ExplorerState) (hsel : s.lastShownKey ≠ "") :
    (WebStorageExplorer.selectStorageChange env newValue s).1.lastShownKey = "" ∧
    (WebStorageExplorer.selectStorageChange env newValue s).1.lastShownKeyIndex = -1 ∧
    (WebStorageExplorer.selectStorageChange env newValue s).1.activeKey = none ∧
    (env.evalFails = false →
      WebStorageExplorer.storageFor env (WebStorageExplorer.normalizeName newValue) = [] →
      (WebStorageExplorer.selectStorageChange env newValue s).1.initialMsg
        = some (PanelMsg.storageEmpty (WebStorageExplorer.normalizeName newValue))) := by
  unfold WebStorageExplorer.selectStorageChange
  by_cases hf : env.evalFails
  · simp [WebStorageExplorer.retrieveStorage, StorageDriver.getStoragesInfo, hf,
      WebStorageExplorer.clear]
  · rw [Bool.not_eq_true] at hf
    unfold WebStorageExplorer.retrieveStorage
    dsimp only
    rw [getStorageByName_normalizeName env newValue hf]
    simp only [StorageDriver.getStoragesInfo, hf, Bool.false_eq_true, if_false]
    generalize WebStorageExplorer.storageFor env
      (WebStorageExplorer.normalizeName newValue) = pairs
    generalize WebStorageExplorer.normalizeName newValue = name
    by_cases hpe : pairs = []
    · subst hpe
      by_cases hlu : s.loadedByUpdate <;>
        simp [WebStorageExplorer.parseAndRenderStorage, WebStorageExplorer.clear,
          WebStorageExplorer.showInitialText, WebStorageExplorer.checkForLastKey,
          WebStorageExplorer.tryToSelectNextKey, hlu, apply_ite]
    · have hlen : (pairs.map Prod.fst).length ≠ 0 := by
        simpa using hpe
      by_cases hlu : s.loadedByUpdate <;>
        simp [WebStorageExplorer.parseAndRenderStorage, WebStorageExplorer.clear,
          WebStorageExplorer.renderStorageKeys, WebStorageExplorer.showInitialText,
          WebStorageExplorer.checkForLastKey, WebStorageExplorer.tryToSelectNextKey,
          hlu, hlen, hpe, apply_ite]

/-- A failing remote environment used by the C4 witness. -/
def envFailing : RemoteEnv := { ls := [("a", "1")], ss := [], evalFails := true }

/-- A state with key `"a"` rendered and shown, used by the C4 witness. -/
def stShownA : ExplorerState :=
  { initialExplorerState with
    storage := [("a", mkEntry "1")]
    keyList := ["a"]
    lastShownKey := "a"
    lastShownKeyIndex := 0
    renderedKeys := ["a"]
    activeKey := some "a"
    valueView := some (JSVal.str "1") }

/-- Witness for C4 at a concrete failing environment. -/
theorem C4_eval_failure_witness :
    envFailing.evalFails = true ∧
    (WebStorageExplorer.retrieveStorage envFailing "localStorage" stShownA).1.renderedKeys
      = ["a"] ∧
    (WebStorageExplorer.retrieveStorage envFailing "localStorage" stShownA).1.lastShownKey
      = "a" ∧
    (WebStorageExplorer.retrieveStorage envFailing "localStorage" stShownA).1.initialMsg
      = some (PanelMsg.errorLoading "localStorage") := by
  have h := C4_eval_failure envFailing "localStorage" stShownA rfl
  exact ⟨rfl, h.1.trans rfl, h.2.2.2.2.1.trans rfl, h.2.2.2.2.2.2.2.1.trans rfl⟩

/-- A one-key working environment used by the C7 witness. -/
def envOneKey : RemoteEnv := { ls := [("k", "v")], ss := [], evalFails := false }

/-- Witness for C7 at the unrecognised name `"bogus"`. -/
theorem C7_unrecognized_defaults_to_local_witness :
    ("bogus" : String) ≠ "localStorage" ∧ ("bogus" : String) ≠ "sessionStorage" ∧
    envOneKey.evalFails = false ∧
    (WebStorageExplorer.retrieveStorage envOneKey "bogus"
      initialExplorerState).1.currentStorageName = "localStorage" ∧
    (WebStorageExplorer.retrieveStorage envOneKey "bogus"
      initialExplorerState).1.keyList = ["k"] := by
  have hb1 : ("bogus" : String) ≠ "localStorage" := by decide
  have hb2 : ("bogus" : String) ≠ "sessionStorage" := by decide
  have h := C7_unrecognized_defaults_to_local envOneKey "bogus"
    initialExplorerState hb1 hb2 rfl
  exact ⟨hb1, hb2, rfl, h.1, h.2.2.2.trans rfl⟩

/-- Witness for C5: key `"a"` of `localStorage` is selected, the user
switches to an empty `sessionStorage`. -/
theorem C5_switch_clears_selection_witness :
    stShownA.lastShownKey ≠ "" ∧
    envOneKey.evalFails = false ∧
    WebStorageExplorer.storageFor envOneKey
      (WebStorageExplorer.normalizeName "sessionStorage") = [] ∧
    (WebStorageExplorer.selectStorageChange envOneKey "sessionStorage"
      stShownA).1.lastShownKey = "" ∧
    (WebStorageExplorer.selectStorageChange envOneKey "sessionStorage"
      stShownA).1.lastShownKeyIndex = -1 ∧
    (WebStorageExplorer.selectStorageChange envOneKey "sessionStorage"
      stShownA).1.activeKey = none ∧
    (WebStorageExplorer.selectStorageChange envOneKey "sessionStorage"
      stShownA).1.initialMsg = some (PanelMsg.storageEmpty "sessionStorage") := by
  have hsel : stShownA.lastShownKey ≠ "" := by decide
  have h := C5_switch_clears_selection envOneKey "sessionStorage" stShownA hsel
  have hname : WebStorageExplorer.normalizeName "sessionStorage" = "sessionStorage" := by
    decide
  have hempty : WebStorageExplorer.storageFor envOneKey
      (WebStorageExplorer.normalizeName "sessionStorage") = [] := by
    rw [hname]
    rfl
  have hmsg := h.2.2.2 rfl hempty
  rw [hname] at hmsg
  exact ⟨hsel, rfl, hempty, h.1, h.2.1, h.2.2.1, hmsg⟩

/-- A successful association-list lookup locates a member pair. -/
theorem mem_of_lookup_eq_some {β : Type} (l : List (String × β)) (k : String) (v : β)
    (h : l.lookup k = some v) : (k, v) ∈ l := by
  induction l with
  | nil => simp [List.lookup] at h
  | cons p ps ih =>
    rcases p with ⟨a, b⟩
    rw [List.lookup_cons] at h
    cases hk : (k == a) <;> rw [hk] at h
    · exact List.mem_cons_of_mem _ (ih h)
    · cases h
      have : k = a := by simpa using hk
      subst this
      exact List.mem_cons_self _ _

/-- A character free of the selector-hostile set is untouched by CSS input
preprocessing. -/
theorem cssNormChar_safe (c : Char)
    (h : ¬(c = '\x00' ∨ c = '"' ∨ c = '\\' ∨ c = '\n' ∨ c = '\r' ∨ c = '\x0c')) :
    cssNormChar c = c := by
  push_neg at h
  obtain ⟨h0, hq, hb, hn, hr, hff⟩ := h
  unfold cssNormChar
  rw [if_neg (by simp [hr, hff]), if_neg h0]

/-- CSS input preprocessing is the identity on selector-safe character
lists. -/
theorem cssPreprocess_safe (l : List Char)
    (h : ∀ c ∈ l,
      ¬(c = '\x00' ∨ c = '"' ∨ c = '\\' ∨ c = '\n' ∨ c = '\r' ∨ c = '\x0c')) :
    cssPreprocess l = l := by
  induction l with
  | nil => rfl
  | cons c cs ih =>
    rcases cs with - | ⟨c2, cs'⟩
    · show [cssNormChar c] = [c]
      rw [cssNormChar_safe c (h c (by simp))]
    · show (if c = '\r' ∧ c2 = '\n' then '\n' :: cssPreprocess cs'
        else cssNormChar c :: cssPreprocess (c2 :: cs')) = c :: c2 :: cs'
      have hcr : ¬(c = '\r' ∧ c2 = '\n') := by
        intro hab
        exact h c (by simp) (by simp [hab.1])
      rw [if_neg hcr, cssNormChar_safe c (h c (by simp)),
        ih (fun d hd => h d (List.mem_cons_of_mem _ hd))]

/-- Scanning a double-quoted CSS string whose content is selector-safe
consumes exactly the content up to the closing quote and decodes it to
itself. -/
theorem cssStringBody_safe (l rest : List Char) (fuel : Nat)
    (h : ∀ c ∈ l,
      ¬(c = '\x00' ∨ c = '"' ∨ c = '\\' ∨ c = '\n' ∨ c = '\r' ∨ c = '\x0c'))
    (hf : l.length < fuel) :
    cssStringBody fuel (l ++ '"' :: rest) = some (l, rest) := by
  induction l generalizing fuel with
  | nil =>
    obtain ⟨f, rfl⟩ : ∃ f, fuel = f + 1 := ⟨fuel - 1, by omega⟩
    rfl
  | cons c cs ih =>
    obtain ⟨f, rfl⟩ : ∃ f, fuel = f + 1 := ⟨fuel - 1, by omega⟩
    have hc := h c (by simp)
    push_neg at hc
    obtain ⟨h0, hq, hb, hn, hr, hff⟩ := hc
    have hf' : cs.length < f := by
      have := hf
      simp only [List.length_cons] at this
      omega
    simp only [List.cons_append, cssStringBody]
    rw [if_neg hq, if_neg hn, if_neg hb]
    simp only [List.append_eq]
    rw [ih f (fun d hd => h d (List.mem_cons_of_mem _ hd)) hf']
    rfl

/-- On a selector-safe key the raw-interpolated selector is valid and
denotes exactly the key: the query reduces to membership of the key in the
rendered list. -/
theorem querySelectKey_safe (renderedKeys : List String) (key : String)
    (h : selectorSafe key = true) :
    querySelectKey renderedKeys key
      = Except.ok (if renderedKeys.contains key then some key else none) := by
  have h' : ∀ c ∈ key.data,
      ¬(c = '\x00' ∨ c = '"' ∨ c = '\\' ∨ c = '\n' ∨ c = '\r' ∨ c = '\x0c') := by
    simpa [selectorSafe, List.all_eq_true] using h
  unfold querySelectKey
  dsimp only
  rw [cssPreprocess_safe key.data h']
  rw [cssStringBody_safe key.data [']'] ((key.data ++ ['"', ']']).length + 1) h'
    (by simp only [List.length_append, List.length_cons, List.length_nil]; omega)]
  dsimp only
  rw [if_pos rfl]

/-! ### Claim C2 -/

/-- Environment whose `localStorage` holds only the key `"b"`. -/
def envSingleB : RemoteEnv := { ls := [("b", "1")], ss := [], evalFails := false }

/-- A state whose selection records key `"b"` at index 1 (as after showing
`b` from an earlier snapshot `\x7ba, b\x7d`). -/
def stShownBAt1 : ExplorerState :=
  { initialExplorerState with lastShownKey := "b", lastShownKeyIndex := 1 }

/-- C2 is false as stated: after an explicit reload whose new snapshot still
contains the shown key `"b"` — now at position 0 of the key list — the key is
re-shown but `lastShownKeyIndex` keeps its stale value 1 instead of being
updated to the key's position (`_tryToShowLastKey` never writes the index). -/
theorem C2_counterexample :
    (WebStorageExplorer.reloadClick envSingleB stShownBAt1).1.lastShownKey = "b" ∧
    (WebStorageExplorer.reloadClick envSingleB stShownBAt1).1.keyList = ["b"] ∧
    (WebStorageExplorer.reloadClick envSingleB stShownBAt1).1.activeKey = some "b" ∧
    (WebStorageExplorer.reloadClick envSingleB stShownBAt1).1.lastShownKeyIndex ≠ 0 ∧
    (WebStorageExplorer.reloadClick envSingleB stShownBAt1).1.lastShownKeyIndex = 1 := by
  refine ⟨rfl, rfl, rfl, by decide, rfl⟩

/-- C2 amended.  For every explicit reload (reload button: `clear(true)` then
`update`) over a working bridge, from a state with a key shown whose key is
still present in the new snapshot and is selector-safe (free of NUL, double
quote, backslash and newline-class characters, so that the raw-interpolated
`querySelector` denotes exactly the key): the key is re-shown (its entry's
value is displayed and it is recorded as the last shown key), its key-list
item is marked active, and `lastShownKeyIndex` is left unchanged — it is not
updated to the key's new position. -/
theorem C2_reload_reshows_key_amended (env : RemoteEnv) (s : ExplorerState)
    (hf : env.evalFails = false) (hsel : s.lastShownKey ≠ "")
    (hsafe : selectorSafe s.lastShownKey = true)
    (hmem : ((WebStorageExplorer.storageFor env
        (WebStorageExplorer.normalizeName s.currentStorageName)).map
        Prod.fst).contains s.lastShownKey = true) :
    (WebStorageExplorer.reloadClick env s).1.lastShownKey = s.lastShownKey ∧
    (WebStorageExplorer.reloadClick env s).1.activeKey = some s.lastShownKey ∧
    (WebStorageExplorer.reloadClick env s).1.valueView
      = ((storageEntries (WebStorageExplorer.storageFor env
          (WebStorageExplorer.normalizeName s.currentStorageName))).lookup
          s.lastShownKey).map Entry.value ∧
    (WebStorageExplorer.reloadClick env s).1.valueView.isSome = true ∧
    (WebStorageExplorer.reloadClick env s).1.lastShownKeyIndex
      = s.lastShownKeyIndex := by
  unfold WebStorageExplorer.reloadClick WebStorageExplorer.update
  have hcn : (WebStorageExplorer.clear true s).currentStorageName
      = s.currentStorageName := rfl
  rw [hcn]
  unfold WebStorageExplorer.retrieveStorage
  dsimp only
  rw [getStorageByName_normalizeName env s.currentStorageName hf]
  simp only [StorageDriver.getStoragesInfo, hf, Bool.false_eq_true, if_false]
  generalize hgen : WebStorageExplorer.storageFor env
    (WebStorageExplorer.normalizeName s.currentStorageName) = pairs at hmem ⊢
  obtain ⟨v, hv⟩ : ∃ v, pairs.lookup s.lastShownKey = some v := by
    rw [contains_fst_eq_isSome_lookup] at hmem
    exact Option.isSome_iff_exists.mp hmem
  have hlkSE : (storageEntries pairs).lookup s.lastShownKey = some (mkEntry v) := by
    rw [lookup_storageEntries, hv]
    rfl
  have hlen : (pairs.map Prod.fst).length ≠ 0 := by
    rcases pairs with - | ⟨p, ps⟩
    · simp [List.lookup] at hv
    · simp
  have hpe : pairs ≠ [] := by
    intro habs
    rw [habs] at hv
    simp [List.lookup] at hv
  have hq : querySelectKey (pairs.map Prod.fst) s.lastShownKey
      = Except.ok (some s.lastShownKey) := by
    rw [querySelectKey_safe _ _ hsafe, if_pos hmem]
  simp [WebStorageExplorer.parseAndRenderStorage, WebStorageExplorer.clear,
    WebStorageExplorer.renderStorageKeys, WebStorageExplorer.showInitialText,
    WebStorageExplorer.checkForLastKey, WebStorageExplorer.tryToShowLastKey,
    WebStorageExplorer.showValueForKey, hsel, hlen, hpe, hlkSE, hmem, hq,
    apply_ite]

/-- Witness for the amended C2, at the counterexample's own input: `"b"` is
re-shown and marked active, and the index stays at its recorded value 1. -/
theorem C2_reload_reshows_key_amended_witness :
    envSingleB.evalFails = false ∧ stShownBAt1.lastShownKey ≠ "" ∧
    selectorSafe stShownBAt1.lastShownKey = true ∧
    ((WebStorageExplorer.storageFor envSingleB
        (WebStorageExplorer.normalizeName stShownBAt1.currentStorageName)).map
        Prod.fst).contains stShownBAt1.lastShownKey = true ∧
    (WebStorageExplorer.reloadClick envSingleB stShownBAt1).1.lastShownKey = "b" ∧
    (WebStorageExplorer.reloadClick envSingleB stShownBAt1).1.activeKey = some "b" ∧
    (WebStorageExplorer.reloadClick envSingleB stShownBAt1).1.lastShownKeyIndex
      = stShownBAt1.lastShownKeyIndex := by
  have hsel : stShownBAt1.lastShownKey ≠ "" := by decide
  have hsafe : selectorSafe stShownBAt1.lastShownKey = true := by decide
  have hmem : ((WebStorageExplorer.storageFor envSingleB
      (WebStorageExplorer.normalizeName stShownBAt1.currentStorageName)).map
      Prod.fst).contains stShownBAt1.lastShownKey = true := by decide
  have h := C2_reload_reshows_key_amended envSingleB stShownBAt1 rfl hsel hsafe hmem
  exact ⟨rfl, hsel, hsafe, hmem, h.1.trans rfl, h.2.1.trans rfl, h.2.2.2.2⟩

/-! ### Claim C3 -/

/-- When an index is recorded and keys exist, `_tryToSelectNextKey` always
stores the clamped index, whether or not anything gets shown. -/
theorem tryToSelectNextKey_index (s : ExplorerState)
    (h1 : s.lastShownKeyIndex ≠ -1) (h2 : s.keyList.length ≠ 0) :
    (WebStorageExplorer.tryToSelectNextKey s).1.lastShownKeyIndex
      = min s.lastShownKeyIndex ((s.keyList.length : Int) - 1) := by
  unfold WebStorageExplorer.tryToSelectNextKey
  dsimp only
  rw [if_pos ⟨h1, h2⟩]
  split
  · split_ifs
    · rfl
    · split <;> simp
  · rfl

/-- When the clamped position holds a non-empty selector-safe key present in
the snapshot map and rendered in the key list, `_tryToSelectNextKey` shows
that key and marks it active. -/
theorem tryToSelectNextKey_shows (s : ExplorerState)
    (h1 : s.lastShownKeyIndex ≠ -1) (h2 : s.keyList.length ≠ 0)
    (k : String) (e : Entry)
    (hk : WebStorageExplorer.jsIndex s.keyList
        (min s.lastShownKeyIndex ((s.keyList.length : Int) - 1)) = some k)
    (hkne : k ≠ "") (hsafe : selectorSafe k = true)
    (he : s.storage.lookup k = some e)
    (hr : s.renderedKeys.contains k = true) :
    (WebStorageExplorer.tryToSelectNextKey s).1.lastShownKey = k ∧
    (WebStorageExplorer.tryToSelectNextKey s).1.activeKey = some k ∧
    (WebStorageExplorer.tryToSelectNextKey s).1.valueView = some e.value := by
  have hq : querySelectKey s.renderedKeys k = Except.ok (some k) := by
    rw [querySelectKey_safe _ _ hsafe, if_pos hr]
  unfold WebStorageExplorer.tryToSelectNextKey
  dsimp only
  rw [if_pos ⟨h1, h2⟩]
  rw [hk]
  dsimp only
  rw [if_neg hkne]
  simp [WebStorageExplorer.showValueForKey, he, hq]

/-- C3 amended.  For every explicit reload over a working bridge where the
previously shown key is absent from the new snapshot, a previous index (not
`-1`) was recorded and the new key list is non-empty: the index is set to
`min(previous index, length - 1)`, and if the clamped position holds a
non-empty selector-safe key (free of NUL, double quote, backslash and
newline-class characters, so that the raw-interpolated `querySelector`
denotes exactly the key), that key is selected and shown (the JavaScript
truthiness guard `if (key)` skips an empty-string key, which is what the
counterexample exhibits).  In particular, from `\x7ba, b, c\x7d` with `b`
selected at index 1, refreshing to `\x7ba, c\x7d` selects `c`. -/
theorem C3_clamped_selection_amended (env : RemoteEnv) (s : ExplorerState)
    (hf : env.evalFails = false)
    (habs : ((WebStorageExplorer.storageFor env
        (WebStorageExplorer.normalizeName s.currentStorageName)).map
        Prod.fst).contains s.lastShownKey = false)
    (hidx : s.lastShownKeyIndex ≠ -1)
    (hne : WebStorageExplorer.storageFor env
        (WebStorageExplorer.normalizeName s.currentStorageName) ≠ []) :
    (WebStorageExplorer.reloadClick env s).1.lastShownKeyIndex
      = min s.lastShownKeyIndex
          (((WebStorageExplorer.storageFor env
              (WebStorageExplorer.normalizeName s.currentStorageName)).length : Int)
            - 1) ∧
    (∀ k : String,
      WebStorageExplorer.jsIndex
          ((WebStorageExplorer.storageFor env
            (WebStorageExplorer.normalizeName s.currentStorageName)).map Prod.fst)
          (min s.lastShownKeyIndex
            (((WebStorageExplorer.storageFor env
                (WebStorageExplorer.normalizeName s.currentStorageName)).length : Int)
              - 1)) = some k →
      k ≠ "" → selectorSafe k = true →
      (WebStorageExplorer.reloadClick env s).1.lastShownKey = k ∧
      (WebStorageExplorer.reloadClick env s).1.activeKey = some k ∧
      (WebStorageExplorer.reloadClick env s).1.valueView
        = ((storageEntries (WebStorageExplorer.storageFor env
            (WebStorageExplorer.normalizeName s.currentStorageName))).lookup
            k).map Entry.value) := by
  unfold WebStorageExplorer.reloadClick WebStorageExplorer.update
  have hcn : (WebStorageExplorer.clear true s).currentStorageName
      = s.currentStorageName := rfl
  rw [hcn]
  unfold WebStorageExplorer.retrieveStorage
  dsimp only
  rw [getStorageByName_normalizeName env s.currentStorageName hf]
  simp only [StorageDriver.getStoragesInfo, hf, Bool.false_eq_true, if_false]
  generalize WebStorageExplorer.storageFor env
    (WebStorageExplorer.normalizeName s.currentStorageName) = pairs at habs hne ⊢
  have hlen : (pairs.map Prod.fst).length ≠ 0 := by simpa using hne
  have hlkNone : (storageEntries pairs).lookup s.lastShownKey = none := by
    rw [lookup_storageEntries]
    rw [contains_fst_eq_isSome_lookup] at habs
    rcases h : pairs.lookup s.lastShownKey with - | v
    · rfl
    · rw [h] at habs
      simp at habs
  refine ⟨?_, fun k hk hkne hksafe => ?_⟩
  · by_cases hse : s.lastShownKey = ""
    all_goals
      simp only [WebStorageExplorer.parseAndRenderStorage, WebStorageExplorer.clear,
        WebStorageExplorer.renderStorageKeys, WebStorageExplorer.showInitialText,
        WebStorageExplorer.checkForLastKey]
      simp [hse, hlen, hlkNone, hidx, hne, apply_ite]
      rw [tryToSelectNextKey_index]
      · simp
      · simpa using hidx
      · simpa using hlen
  · have hkmem : k ∈ pairs.map Prod.fst := mem_of_jsIndex _ _ _ hk
    have hc : (pairs.map Prod.fst).contains k = true := by simpa using hkmem
    rw [contains_fst_eq_isSome_lookup] at hc
    obtain ⟨v, hv⟩ := Option.isSome_iff_exists.mp hc
    have he : (storageEntries pairs).lookup k = some (mkEntry v) := by
      rw [lookup_storageEntries, hv]
      rfl
    by_cases hse : s.lastShownKey = ""
    all_goals
      simp only [WebStorageExplorer.parseAndRenderStorage, WebStorageExplorer.clear,
        WebStorageExplorer.renderStorageKeys, WebStorageExplorer.showInitialText,
        WebStorageExplorer.checkForLastKey]
      simp [hse, hlen, hlkNone, hne, apply_ite]
      rw [he]
      exact tryToSelectNextKey_shows _ (by simpa using hidx) (by simpa using hlen)
        k (mkEntry v) (by simpa using hk) hkne hksafe (by simpa using he)
        (by simpa using hkmem)

/-- Environment whose `localStorage` has the empty string as its only key. -/
def envEmptyStringKey : RemoteEnv := { ls := [("", "v")], ss := [], evalFails := false }

/-- A state whose previously shown key `"x"` was at index 0. -/
def stShownXAt0 : ExplorerState :=
  { initialExplorerState with lastShownKey := "x", lastShownKeyIndex := 0 }

/-- C3 is false as stated: refreshing to the snapshot whose only key is the
empty string, with previous key `"x"` absent, recorded index 0 and a
non-empty key list, clamps the index to 0 but does *not* select or show the
key at that clamped position — the JavaScript `if (key)` guard treats the
empty-string key as falsy, so no key becomes active and nothing is shown. -/
theorem C3_counterexample :
    envEmptyStringKey.evalFails = false ∧
    ((WebStorageExplorer.storageFor envEmptyStringKey
        (WebStorageExplorer.normalizeName stShownXAt0.currentStorageName)).map
        Prod.fst).contains stShownXAt0.lastShownKey = false ∧
    stShownXAt0.lastShownKeyIndex ≠ -1 ∧
    (WebStorageExplorer.reloadClick envEmptyStringKey stShownXAt0).1.keyList = [""] ∧
    (WebStorageExplorer.reloadClick envEmptyStringKey stShownXAt0).1.lastShownKeyIndex
      = 0 ∧
    (WebStorageExplorer.reloadClick envEmptyStringKey stShownXAt0).1.lastShownKey
      = "x" ∧
    (WebStorageExplorer.reloadClick envEmptyStringKey stShownXAt0).1.activeKey
      = none ∧
    (WebStorageExplorer.reloadClick envEmptyStringKey stShownXAt0).1.valueView
      = none := by
  exact ⟨rfl, by decide, by decide, rfl, by decide, rfl, rfl, rfl⟩

/-- Environment producing the spec's reconciliation example: the snapshot
`\x7ba: 1, c: 3\x7d` after `b` was removed. -/
def envAC : RemoteEnv := { ls := [("a", "1"), ("c", "3")], ss := [], evalFails := false }

/-- Witness for the amended C3, at the spec's own example: from `\x7ba, b, c\x7d`
with `b` selected at index 1, refreshing to `\x7ba, c\x7d` clamps the index
to 1 and selects `c`. -/
theorem C3_clamped_selection_amended_witness :
    envAC.evalFails = false ∧
    ((WebStorageExplorer.storageFor envAC
        (WebStorageExplorer.normalizeName stShownBAt1.currentStorageName)).map
        Prod.fst).contains stShownBAt1.lastShownKey = false ∧
    stShownBAt1.lastShownKeyIndex ≠ -1 ∧
    (WebStorageExplorer.reloadClick envAC stShownBAt1).1.lastShownKeyIndex = 1 ∧
    (WebStorageExplorer.reloadClick envAC stShownBAt1).1.lastShownKey = "c" ∧
    (WebStorageExplorer.reloadClick envAC stShownBAt1).1.activeKey = some "c" ∧
    (WebStorageExplorer.reloadClick envAC stShownBAt1).1.valueView
      = some (JSVal.str "3") := by
  have habs : ((WebStorageExplorer.storageFor envAC
      (WebStorageExplorer.normalizeName stShownBAt1.currentStorageName)).map
      Prod.fst).contains stShownBAt1.lastShownKey = false := by decide
  have hidx : stShownBAt1.lastShownKeyIndex ≠ -1 := by decide
  have hne : WebStorageExplorer.storageFor envAC
      (WebStorageExplorer.normalizeName stShownBAt1.currentStorageName) ≠ [] := by
    decide
  have h := C3_clamped_selection_amended envAC stShownBAt1 rfl habs hidx hne
  have hshow := h.2 "c" (by decide) (by decide) (by decide)
  exact ⟨rfl, habs, hidx, h.1.trans (by decide), hshow.1, hshow.2.1,
    hshow.2.2.trans rfl⟩

/-! ### Claim C6 -/

/-- An in-bounds JavaScript index read yields an element. -/
theorem jsIndex_isSome (l : List String) (i : Int) (h0 : 0 ≤ i)
    (h1 : i < (l.length : Int)) :
    (WebStorageExplorer.jsIndex l i).isSome = true := by
  unfold WebStorageExplorer.jsIndex
  rw [if_pos h0]
  have ht : i.toNat < l.length := by omega
  simp [List.getElem?_eq_getElem ht]

/-- One refresh pass over non-empty pairs, from an update-flagged state whose
shown key is still present but whose raw-interpolated selector is invalid:
the key list is rebuilt and the key is re-shown with the recorded index
untouched, no item is marked active, and the `querySelector` throw is
reported. -/
theorem run_show_err (pairs : List (String × String)) (w : ExplorerState)
    (hlen : (pairs.map Prod.fst).length ≠ 0) (hlu : w.loadedByUpdate = true)
    (hg1 : w.lastShownKey ≠ "") (e : Entry)
    (he : (storageEntries pairs).lookup w.lastShownKey = some e)
    (hq : querySelectKey (pairs.map Prod.fst) w.lastShownKey = Except.error ()) :
    WebStorageExplorer.parseAndRenderStorage pairs w =
      (⟨storageEntries pairs, pairs.map Prod.fst, w.currentStorageName,
        w.lastShownKey, w.lastShownKeyIndex, false, pairs.map Prod.fst,
        none, some e.value, some (e.type, e.len), none,
        w.storageCounts,
        if e.type = "object" ∨ e.type = "array" then false else true⟩,
       true) := by
  obtain ⟨st, kl, csn, lsk, idx, lbu, rk, ak, vv, vi, im, sc, jt⟩ := w
  subst hlu
  unfold WebStorageExplorer.parseAndRenderStorage
  try dsimp only
  rw [if_pos hlen]
  unfold WebStorageExplorer.renderStorageKeys
  try dsimp only
  unfold WebStorageExplorer.showInitialText
  try dsimp only
  rw [if_neg hg1]
  unfold WebStorageExplorer.checkForLastKey
  try dsimp only
  rw [if_pos rfl]
  try dsimp only
  rw [if_pos ⟨hg1, by rw [he]; rfl⟩]
  unfold WebStorageExplorer.tryToShowLastKey
  try dsimp only
  unfold WebStorageExplorer.showValueForKey
  try dsimp only
  rw [he]
  try dsimp only
  rw [hq]

/-- As `run_show_err`, but the selector is valid and matches nothing: the key
is re-shown without an active marking and no throw occurs. -/
theorem run_show_none (pairs : List (String × String)) (w : ExplorerState)
    (hlen : (pairs.map Prod.fst).length ≠ 0) (hlu : w.loadedByUpdate = true)
    (hg1 : w.lastShownKey ≠ "") (e : Entry)
    (he : (storageEntries pairs).lookup w.lastShownKey = some e)
    (hq : querySelectKey (pairs.map Prod.fst) w.lastShownKey
      = Except.ok none) :
    WebStorageExplorer.parseAndRenderStorage pairs w =
      (⟨storageEntries pairs, pairs.map Prod.fst, w.currentStorageName,
        w.lastShownKey, w.lastShownKeyIndex, false, pairs.map Prod.fst,
        none, some e.value, some (e.type, e.len), none,
        w.storageCounts,
        if e.type = "object" ∨ e.type = "array" then false else true⟩,
       false) := by
  obtain ⟨st, kl, csn, lsk, idx, lbu, rk, ak, vv, vi, im, sc, jt⟩ := w
  subst hlu
  unfold WebStorageExplorer.parseAndRenderStorage
  try dsimp only
  rw [if_pos hlen]
  unfold WebStorageExplorer.renderStorageKeys
  try dsimp only
  unfold WebStorageExplorer.showInitialText
  try dsimp only
  rw [if_neg hg1]
  unfold WebStorageExplorer.checkForLastKey
  try dsimp only
  rw [if_pos rfl]
  try dsimp only
  rw [if_pos ⟨hg1, by rw [he]; rfl⟩]
  unfold WebStorageExplorer.tryToShowLastKey
  try dsimp only
  unfold WebStorageExplorer.showValueForKey
  try dsimp only
  rw [he]
  try dsimp only
  rw [hq]

/-- As `run_show_err`, but the selector is valid and finds an item: that item
is marked active and no throw occurs. -/
theorem run_show_some (pairs : List (String × String)) (w : ExplorerState)
    (hlen : (pairs.map Prod.fst).length ≠ 0) (hlu : w.loadedByUpdate = true)
    (hg1 : w.lastShownKey ≠ "") (e : Entry)
    (he : (storageEntries pairs).lookup w.lastShownKey = some e)
    (k : String)
    (hq : querySelectKey (pairs.map Prod.fst) w.lastShownKey
      = Except.ok (some k)) :
    WebStorageExplorer.parseAndRenderStorage pairs w =
      (⟨storageEntries pairs, pairs.map Prod.fst, w.currentStorageName,
        w.lastShownKey, w.lastShownKeyIndex, false, pairs.map Prod.fst,
        some k, some e.value, some (e.type, e.len), none,
        w.storageCounts,
        if e.type = "object" ∨ e.type = "array" then false else true⟩,
       false) := by
  obtain ⟨st, kl, csn, lsk, idx, lbu, rk, ak, vv, vi, im, sc, jt⟩ := w
  subst hlu
  unfold WebStorageExplorer.parseAndRenderStorage
  try dsimp only
  rw [if_pos hlen]
  unfold WebStorageExplorer.renderStorageKeys
  try dsimp only
  unfold WebStorageExplorer.showInitialText
  try dsimp only
  rw [if_neg hg1]
  unfold WebStorageExplorer.checkForLastKey
  try dsimp only
  rw [if_pos rfl]
  try dsimp only
  rw [if_pos ⟨hg1, by rw [he]; rfl⟩]
  unfold WebStorageExplorer.tryToShowLastKey
  try dsimp only
  unfold WebStorageExplorer.showValueForKey
  try dsimp only
  rw [he]
  try dsimp only
  rw [hq]

/-- One refresh pass over non-empty pairs when reconciliation has nothing to
do: the previous key is gone (or none was shown) and no index was recorded.
No selector is queried, so no throw occurs. -/
theorem run_noshow (pairs : List (String × String)) (w : ExplorerState)
    (hlen : (pairs.map Prod.fst).length ≠ 0) (hlu : w.loadedByUpdate = true)
    (hgF : ¬(w.lastShownKey ≠ "" ∧
      ((storageEntries pairs).lookup w.lastShownKey).isSome = true))
    (hidx : w.lastShownKeyIndex = -1) :
    WebStorageExplorer.parseAndRenderStorage pairs w =
      (⟨storageEntries pairs, pairs.map Prod.fst, w.currentStorageName,
        w.lastShownKey, -1, false, pairs.map Prod.fst, none, w.valueView,
        w.valueInfo,
        (if w.lastShownKey = ""
         then some (PanelMsg.loadedItems (storageEntries pairs).length)
         else none),
        w.storageCounts, w.jsonToolsHidden⟩,
       false) := by
  obtain ⟨st, kl, csn, lsk, idx, lbu, rk, ak, vv, vi, im, sc, jt⟩ := w
  subst hlu
  have hidx' : idx = -1 := hidx
  subst hidx'
  unfold WebStorageExplorer.parseAndRenderStorage
  try dsimp only
  rw [if_pos hlen]
  unfold WebStorageExplorer.renderStorageKeys
  try dsimp only
  unfold WebStorageExplorer.showInitialText
  try dsimp only
  by_cases hk : lsk = ""
  · rw [if_pos hk, if_pos (by simpa [storageEntries] using hlen), if_pos hk]
    unfold WebStorageExplorer.checkForLastKey
    try dsimp only
    rw [if_pos rfl]
    try dsimp only
    rw [if_neg hgF]
    unfold WebStorageExplorer.tryToSelectNextKey
    try dsimp only
    rw [if_neg (by simp)]
  · rw [if_neg hk, if_neg hk]
    unfold WebStorageExplorer.checkForLastKey
    try dsimp only
    rw [if_pos rfl]
    try dsimp only
    rw [if_neg hgF]
    unfold WebStorageExplorer.tryToSelectNextKey
    try dsimp only
    rw [if_neg (by simp)]

/-- One refresh pass over non-empty pairs when the fallback selection clamps
the index but the clamped position yields nothing to show (out of range, or
the falsy empty-string key): only the index changes, and no selector is
queried. -/
theorem run_clamp_skip (pairs : List (String × String)) (w : ExplorerState)
    (hlen : (pairs.map Prod.fst).length ≠ 0) (hlu : w.loadedByUpdate = true)
    (hgF : ¬(w.lastShownKey ≠ "" ∧
      ((storageEntries pairs).lookup w.lastShownKey).isSome = true))
    (hidx : w.lastShownKeyIndex ≠ -1)
    (hj : WebStorageExplorer.jsIndex (pairs.map Prod.fst)
        (min w.lastShownKeyIndex (((pairs.map Prod.fst).length : Int) - 1)) = none ∨
      WebStorageExplorer.jsIndex (pairs.map Prod.fst)
        (min w.lastShownKeyIndex (((pairs.map Prod.fst).length : Int) - 1)) = some "") :
    WebStorageExplorer.parseAndRenderStorage pairs w =
      (⟨storageEntries pairs, pairs.map Prod.fst, w.currentStorageName,
        w.lastShownKey,
        min w.lastShownKeyIndex (((pairs.map Prod.fst).length : Int) - 1), false,
        pairs.map Prod.fst, none, w.valueView, w.valueInfo,
        (if w.lastShownKey = ""
         then some (PanelMsg.loadedItems (storageEntries pairs).length)
         else none),
        w.storageCounts, w.jsonToolsHidden⟩,
       false) := by
  obtain ⟨st, kl, csn, lsk, idx, lbu, rk, ak, vv, vi, im, sc, jt⟩ := w
  subst hlu
  unfold WebStorageExplorer.parseAndRenderStorage
  try dsimp only
  rw [if_pos hlen]
  unfold WebStorageExplorer.renderStorageKeys
  try dsimp only
  unfold WebStorageExplorer.showInitialText
  try dsimp only
  by_cases hk : lsk = "" <;>
    [rw [if_pos hk, if_pos (by simpa [storageEntries] using hlen), if_pos hk];
     rw [if_neg hk, if_neg hk]] <;>
  · unfold WebStorageExplorer.checkForLastKey
    try dsimp only
    rw [if_pos rfl]
    try dsimp only
    rw [if_neg hgF]
    unfold WebStorageExplorer.tryToSelectNextKey
    try dsimp only
    rw [if_pos ⟨hidx, by simpa using hlen⟩]
    rcases hj with hj | hj
    · rw [hj]
    · rw [hj]
      try dsimp only
      try rw [if_pos rfl]

/-- One refresh pass over non-empty pairs when the fallback selection clamps
the index and finds a non-empty key there, but that key's raw-interpolated
selector is invalid: the key is shown with the clamped index recorded, no
item is marked active, and the `querySelector` throw is reported. -/
theorem run_clamp_show_err (pairs : List (String × String)) (w : ExplorerState)
    (hlen : (pairs.map Prod.fst).length ≠ 0) (hlu : w.loadedByUpdate = true)
    (hgF : ¬(w.lastShownKey ≠ "" ∧
      ((storageEntries pairs).lookup w.lastShownKey).isSome = true))
    (hidx : w.lastShownKeyIndex ≠ -1) (k : String) (e : Entry)
    (hj : WebStorageExplorer.jsIndex (pairs.map Prod.fst)
        (min w.lastShownKeyIndex (((pairs.map Prod.fst).length : Int) - 1)) = some k)
    (hk0 : k ≠ "") (he : (storageEntries pairs).lookup k = some e)
    (hq : querySelectKey (pairs.map Prod.fst) k = Except.error ()) :
    WebStorageExplorer.parseAndRenderStorage pairs w =
      (⟨storageEntries pairs, pairs.map Prod.fst, w.currentStorageName, k,
        min w.lastShownKeyIndex (((pairs.map Prod.fst).length : Int) - 1), false,
        pairs.map Prod.fst, none, some e.value, some (e.type, e.len), none,
        w.storageCounts,
        if e.type = "object" ∨ e.type = "array" then false else true⟩,
       true) := by
  obtain ⟨st, kl, csn, lsk, idx, lbu, rk, ak, vv, vi, im, sc, jt⟩ := w
  subst hlu
  unfold WebStorageExplorer.parseAndRenderStorage
  try dsimp only
  rw [if_pos hlen]
  unfold WebStorageExplorer.renderStorageKeys
  try dsimp only
  unfold WebStorageExplorer.showInitialText
  try dsimp only
  by_cases hk : lsk = "" <;>
    [rw [if_pos hk, if_pos (by simpa [storageEntries] using hlen)];
     rw [if_neg hk]] <;>
  · unfold WebStorageExplorer.checkForLastKey
    try dsimp only
    rw [if_pos rfl]
    try dsimp only
    rw [if_neg hgF]
    unfold WebStorageExplorer.tryToSelectNextKey
    try dsimp only
    rw [if_pos ⟨hidx, by simpa using hlen⟩]
    rw [hj]
    try dsimp only
    rw [if_neg hk0]
    unfold WebStorageExplorer.showValueForKey
    try dsimp only
    rw [he]
    try dsimp only
    rw [hq]

/-- As `run_clamp_show_err`, but the selector is valid and matches nothing:
the key is shown without an active marking and no throw occurs. -/
theorem run_clamp_show_none (pairs : List (String × String)) (w : ExplorerState)
    (hlen : (pairs.map Prod.fst).length ≠ 0) (hlu : w.loadedByUpdate = true)
    (hgF : ¬(w.lastShownKey ≠ "" ∧
      ((storageEntries pairs).lookup w.lastShownKey).isSome = true))
    (hidx : w.lastShownKeyIndex ≠ -1) (k : String) (e : Entry)
    (hj : WebStorageExplorer.jsIndex (pairs.map Prod.fst)
        (min w.lastShownKeyIndex (((pairs.map Prod.fst).length : Int) - 1)) = some k)
    (hk0 : k ≠ "") (he : (storageEntries pairs).lookup k = some e)
    (hq : querySelectKey (pairs.map Prod.fst) k = Except.ok none) :
    WebStorageExplorer.parseAndRenderStorage pairs w =
      (⟨storageEntries pairs, pairs.map Prod.fst, w.currentStorageName, k,
        min w.lastShownKeyIndex (((pairs.map Prod.fst).length : Int) - 1), false,
        pairs.map Prod.fst, none, some e.value, some (e.type, e.len), none,
        w.storageCounts,
        if e.type = "object" ∨ e.type = "array" then false else true⟩,
       false) := by
  obtain ⟨st, kl, csn, lsk, idx, lbu, rk, ak, vv, vi, im, sc, jt⟩ := w
  subst hlu
  unfold WebStorageExplorer.parseAndRenderStorage
  try dsimp only
  rw [if_pos hlen]
  unfold WebStorageExplorer.renderStorageKeys
  try dsimp only
  unfold WebStorageExplorer.showInitialText
  try dsimp only
  by_cases hk : lsk = "" <;>
    [rw [if_pos hk, if_pos (by simpa [storageEntries] using hlen)];
     rw [if_neg hk]] <;>
  · unfold WebStorageExplorer.checkForLastKey
    try dsimp only
    rw [if_pos rfl]
    try dsimp only
    rw [if_neg hgF]
    unfold WebStorageExplorer.tryToSelectNextKey
    try dsimp only
    rw [if_pos ⟨hidx, by simpa using hlen⟩]
    rw [hj]
    try dsimp only
    rw [if_neg hk0]
    unfold WebStorageExplorer.showValueForKey
    try dsimp only
    rw [he]
    try dsimp only
    rw [hq]

/-- As `run_clamp_show_err`, but the selector is valid and finds an item:
that item is marked active and no throw occurs. -/
theorem run_clamp_show_some (pairs : List (String × String)) (w : ExplorerState)
    (hlen : (pairs.map Prod.fst).length ≠ 0) (hlu : w.loadedByUpdate = true)
    (hgF : ¬(w.lastShownKey ≠ "" ∧
      ((storageEntries pairs).lookup w.lastShownKey).isSome = true))
    (hidx : w.lastShownKeyIndex ≠ -1) (k : String) (e : Entry)
    (hj : WebStorageExplorer.jsIndex (pairs.map Prod.fst)
        (min w.lastShownKeyIndex (((pairs.map Prod.fst).length : Int) - 1)) = some k)
    (hk0 : k ≠ "") (he : (storageEntries pairs).lookup k = some e)
    (k' : String)
    (hq : querySelectKey (pairs.map Prod.fst) k = Except.ok (some k')) :
    WebStorageExplorer.parseAndRenderStorage pairs w =
      (⟨storageEntries pairs, pairs.map Prod.fst, w.currentStorageName, k,
        min w.lastShownKeyIndex (((pairs.map Prod.fst).length : Int) - 1), false,
        pairs.map Prod.fst, some k', some e.value, some (e.type, e.len), none,
        w.storageCounts,
        if e.type = "object" ∨ e.type = "array" then false else true⟩,
       false) := by
  obtain ⟨st, kl, csn, lsk, idx, lbu, rk, ak, vv, vi, im, sc, jt⟩ := w
  subst hlu
  unfold WebStorageExplorer.parseAndRenderStorage
  try dsimp only
  rw [if_pos hlen]
  unfold WebStorageExplorer.renderStorageKeys
  try dsimp only
  unfold WebStorageExplorer.showInitialText
  try dsimp only
  by_cases hk : lsk = "" <;>
    [rw [if_pos hk, if_pos (by simpa [storageEntries] using hlen)];
     rw [if_neg hk]] <;>
  · unfold WebStorageExplorer.checkForLastKey
    try dsimp only
    rw [if_pos rfl]
    try dsimp only
    rw [if_neg hgF]
    unfold WebStorageExplorer.tryToSelectNextKey
    try dsimp only
    rw [if_pos ⟨hidx, by simpa using hlen⟩]
    rw [hj]
    try dsimp only
    rw [if_neg hk0]
    unfold WebStorageExplorer.showValueForKey
    try dsimp only
    rw [he]
    try dsimp only
    rw [hq]

/-- Core of C6: one snapshot-rendering pass over the same fetched pairs,
started from a state flagged as an explicit update, is idempotent — running
it again from its own output state (re-flagged as an update, as `update`
does, and with any initial message, as the catch may have left one) repeats
the outcome exactly, including the thrown-flag: the rendered list, the
selection and the `querySelector` outcome are determined by the pairs and
the carried-over selection alone. -/
theorem parseAndRender_idem (pairs : List (String × String)) (u : ExplorerState)
    (m : Option PanelMsg) (hlu : u.loadedByUpdate = true) :
    WebStorageExplorer.parseAndRenderStorage pairs
      { (WebStorageExplorer.parseAndRenderStorage pairs u).1 with
        loadedByUpdate := true, initialMsg := m }
      = WebStorageExplorer.parseAndRenderStorage pairs u := by
  by_cases hpe : pairs = []
  · obtain ⟨st, kl, csn, lsk, idx, lbu, rk, ak, vv, vi, im, sc, jt⟩ := u
    subst hlu
    subst hpe
    simp [WebStorageExplorer.parseAndRenderStorage, WebStorageExplorer.clear,
      WebStorageExplorer.showInitialText, WebStorageExplorer.checkForLastKey,
      WebStorageExplorer.tryToSelectNextKey, storageEntries]
  · have hlen : (pairs.map Prod.fst).length ≠ 0 := by simpa using hpe
    by_cases hg : u.lastShownKey ≠ "" ∧
        ((storageEntries pairs).lookup u.lastShownKey).isSome = true
    · obtain ⟨hg1, hg2⟩ := hg
      obtain ⟨e, he⟩ := Option.isSome_iff_exists.mp hg2
      rcases hq : querySelectKey (pairs.map Prod.fst) u.lastShownKey with u' | o
      · cases u'
        rw [run_show_err pairs u hlen hlu hg1 e he hq]
        rw [run_show_err pairs _ hlen (by rfl) (by exact hg1) e (by exact he)
          (by exact hq)]
      · rcases o with - | k
        · rw [run_show_none pairs u hlen hlu hg1 e he hq]
          rw [run_show_none pairs _ hlen (by rfl) (by exact hg1) e (by exact he)
            (by exact hq)]
        · rw [run_show_some pairs u hlen hlu hg1 e he k hq]
          rw [run_show_some pairs _ hlen (by rfl) (by exact hg1) e (by exact he)
            k (by exact hq)]
    · have hgF := hg
      by_cases hidx : u.lastShownKeyIndex = -1
      · rw [run_noshow pairs u hlen hlu hgF hidx]
        rw [run_noshow pairs _ hlen (by rfl) (by exact hgF) (by rfl)]
      · have hL : 1 ≤ ((pairs.map Prod.fst).length : Int) := by
          have := Nat.pos_of_ne_zero hlen
          exact_mod_cast this
        have hi_ne : min u.lastShownKeyIndex
            (((pairs.map Prod.fst).length : Int) - 1) ≠ -1 := by
          rcases le_total u.lastShownKeyIndex
              (((pairs.map Prod.fst).length : Int) - 1) with h | h
          · rw [min_eq_left h]
            exact hidx
          · rw [min_eq_right h]
            omega
        have hEq : min (min u.lastShownKeyIndex
              (((pairs.map Prod.fst).length : Int) - 1))
              (((pairs.map Prod.fst).length : Int) - 1)
            = min u.lastShownKeyIndex (((pairs.map Prod.fst).length : Int) - 1) := by
          rw [min_assoc, min_self]
        rcases hjc : WebStorageExplorer.jsIndex (pairs.map Prod.fst)
            (min u.lastShownKeyIndex (((pairs.map Prod.fst).length : Int) - 1))
          with - | k
        · rw [run_clamp_skip pairs u hlen hlu hgF hidx (Or.inl hjc)]
          rw [run_clamp_skip pairs _ hlen (by rfl) (by exact hgF) (by exact hi_ne)
            (Or.inl (by rw [hEq]; exact hjc))]
          simp [hEq]
        · by_cases hk0 : k = ""
          · subst hk0
            rw [run_clamp_skip pairs u hlen hlu hgF hidx (Or.inr hjc)]
            rw [run_clamp_skip pairs _ hlen (by rfl) (by exact hgF) (by exact hi_ne)
              (Or.inr (by rw [hEq]; exact hjc))]
            simp [hEq]
          · have hkmem : k ∈ pairs.map Prod.fst := mem_of_jsIndex _ _ _ hjc
            have hc : (pairs.map Prod.fst).contains k = true := by simpa using hkmem
            rw [contains_fst_eq_isSome_lookup] at hc
            obtain ⟨v, hv⟩ := Option.isSome_iff_exists.mp hc
            have he' : (storageEntries pairs).lookup k = some (mkEntry v) := by
              rw [lookup_storageEntries, hv]
              rfl
            rcases hq : querySelectKey (pairs.map Prod.fst) k with u' | o
            · cases u'
              rw [run_clamp_show_err pairs u hlen hlu hgF hidx k (mkEntry v)
                hjc hk0 he' hq]
              rw [run_show_err pairs _ hlen (by rfl) (by exact hk0) (mkEntry v)
                (by exact he') (by exact hq)]
            · rcases o with - | k'
              · rw [run_clamp_show_none pairs u hlen hlu hgF hidx k (mkEntry v)
                  hjc hk0 he' hq]
                rw [run_show_none pairs _ hlen (by rfl) (by exact hk0) (mkEntry v)
                  (by exact he') (by exact hq)]
              · rw [run_clamp_show_some pairs u hlen hlu hgF hidx k (mkEntry v)
                  hjc hk0 he' k' hq]
                rw [run_show_some pairs _ hlen (by rfl) (by exact hk0) (mkEntry v)
                  (by exact he') k' (by exact hq)]

@[simp] theorem currentStorageName_parseAndRenderStorage
    (pairs : List (String × String)) (s : ExplorerState) :
    (WebStorageExplorer.parseAndRenderStorage pairs s).1.currentStorageName
      = s.currentStorageName := by
  unfold WebStorageExplorer.parseAndRenderStorage
  dsimp only
  split_ifs <;>
    simp [WebStorageExplorer.renderStorageKeys, WebStorageExplorer.clear]

@[simp] theorem storageCounts_parseAndRenderStorage
    (pairs : List (String × String)) (s : ExplorerState) :
    (WebStorageExplorer.parseAndRenderStorage pairs s).1.storageCounts
      = s.storageCounts := by
  unfold WebStorageExplorer.parseAndRenderStorage
  dsimp only
  split_ifs <;>
    simp [WebStorageExplorer.renderStorageKeys, WebStorageExplorer.clear]

/-- The rendering pass `update` performs over a working bridge: the fetched
pairs of the (normalised) current storage, run from the state stamped with
the update flag, the normalised name and the fresh counts. -/
def updatePass (env : RemoteEnv) (x : ExplorerState) : ExplorerState × Bool :=
  WebStorageExplorer.parseAndRenderStorage
    (WebStorageExplorer.storageFor env
      (WebStorageExplorer.normalizeName x.currentStorageName))
    { x with
        loadedByUpdate := true
        currentStorageName := WebStorageExplorer.normalizeName x.currentStorageName
        storageCounts := some (env.ls.length, env.ss.length) }

/-- `update` over a working bridge is the rendering pass followed by the
catch: a `querySelector` throw replaces the initial message with the
error-loading text, everything else is the pass's output. -/
theorem update_char (env : RemoteEnv) (x : ExplorerState)
    (hf : env.evalFails = false) :
    (WebStorageExplorer.update env x).1
      = (if (updatePass env x).2 then
          { (updatePass env x).1 with
            initialMsg := some (PanelMsg.errorLoading
              (WebStorageExplorer.normalizeName x.currentStorageName)) }
        else (updatePass env x).1) := by
  unfold WebStorageExplorer.update WebStorageExplorer.retrieveStorage updatePass
  dsimp only
  rw [getStorageByName_normalizeName env x.currentStorageName hf]
  simp [StorageDriver.getStoragesInfo, hf]

/-- Running `update` from the state an `update` produced changes nothing:
the second pass reads the same remote pairs and reconciles the same
selection, and the deterministic `querySelector` outcome — including a
throw — repeats. -/
theorem update_update (env : RemoteEnv) (s : ExplorerState) :
    (WebStorageExplorer.update env (WebStorageExplorer.update env s).1).1
      = (WebStorageExplorer.update env s).1 := by
  by_cases hf : env.evalFails = true
  · obtain ⟨st, kl, csn, lsk, idx, lbu, rk, ak, vv, vi, im, sc, jt⟩ := s
    simp [WebStorageExplorer.update, WebStorageExplorer.retrieveStorage,
      StorageDriver.getStoragesInfo, hf, normalizeName_idem]
  · rw [Bool.not_eq_true] at hf
    have h1 := update_char env s hf
    have h2 := update_char env (WebStorageExplorer.update env s).1 hf
    cases hb : (updatePass env s).2 with
    | false =>
      simp only [hb, Bool.false_eq_true, if_false] at h1
      have hcsn : (WebStorageExplorer.update env s).1.currentStorageName
          = WebStorageExplorer.normalizeName s.currentStorageName := by
        rw [h1]
        simp [updatePass]
      have hrec : { (updatePass env s).1 with
            loadedByUpdate := true
            currentStorageName :=
              WebStorageExplorer.normalizeName s.currentStorageName
            storageCounts := some (env.ls.length, env.ss.length) }
          = { (updatePass env s).1 with
              loadedByUpdate := true
              initialMsg := (updatePass env s).1.initialMsg } := by
        ext <;> simp [updatePass]
      have hup2 : updatePass env (WebStorageExplorer.update env s).1
          = updatePass env s := by
        unfold updatePass
        rw [hcsn, normalizeName_idem, h1]
        refine Eq.trans (congrArg _ hrec)
          (parseAndRender_idem
            (WebStorageExplorer.storageFor env
              (WebStorageExplorer.normalizeName s.currentStorageName))
            { s with
                loadedByUpdate := true
                currentStorageName :=
                  WebStorageExplorer.normalizeName s.currentStorageName
                storageCounts := some (env.ls.length, env.ss.length) }
            ((updatePass env s).1.initialMsg) rfl)
      rw [hcsn, normalizeName_idem, hup2] at h2
      simp only [hb, Bool.false_eq_true, if_false] at h2
      rw [h2, h1]
    | true =>
      simp only [hb, if_true] at h1
      have hcsn : (WebStorageExplorer.update env s).1.currentStorageName
          = WebStorageExplorer.normalizeName s.currentStorageName := by
        rw [h1]
        simp [updatePass]
      have hrec : { { (updatePass env s).1 with
            initialMsg := some (PanelMsg.errorLoading
              (WebStorageExplorer.normalizeName s.currentStorageName)) } with
            loadedByUpdate := true
            currentStorageName :=
              WebStorageExplorer.normalizeName s.currentStorageName
            storageCounts := some (env.ls.length, env.ss.length) }
          = { (updatePass env s).1 with
              loadedByUpdate := true
              initialMsg := some (PanelMsg.errorLoading
                (WebStorageExplorer.normalizeName s.currentStorageName)) } := by
        ext <;> simp [updatePass]
      have hup2 : updatePass env (WebStorageExplorer.update env s).1
          = updatePass env s := by
        unfold updatePass
        rw [hcsn, normalizeName_idem, h1]
        refine Eq.trans (congrArg _ hrec)
          (parseAndRender_idem
            (WebStorageExplorer.storageFor env
              (WebStorageExplorer.normalizeName s.currentStorageName))
            { s with
                loadedByUpdate := true
                currentStorageName :=
                  WebStorageExplorer.normalizeName s.currentStorageName
                storageCounts := some (env.ls.length, env.ss.length) }
            (some (PanelMsg.errorLoading
              (WebStorageExplorer.normalizeName s.currentStorageName))) rfl)
      rw [hcsn, normalizeName_idem, hup2] at h2
      simp only [hb, if_true] at h2
      rw [h2, h1]

/-- C6.  Running the refresh cycle (`update`) twice in a row against the same
unchanged remote storage yields an identical rendered key list (same items,
same active marking) and an identical selection (same shown key, same
recorded index) as running it once. -/
theorem C6_update_idempotent (env : RemoteEnv) (s : ExplorerState) :
    (WebStorageExplorer.update env (WebStorageExplorer.update env s).1).1.renderedKeys
      = (WebStorageExplorer.update env s).1.renderedKeys ∧
    (WebStorageExplorer.update env (WebStorageExplorer.update env s).1).1.activeKey
      = (WebStorageExplorer.update env s).1.activeKey ∧
    (WebStorageExplorer.update env (WebStorageExplorer.update env s).1).1.lastShownKey
      = (WebStorageExplorer.update env s).1.lastShownKey ∧
    (WebStorageExplorer.update env
        (WebStorageExplorer.update env s).1).1.lastShownKeyIndex
      = (WebStorageExplorer.update env s).1.lastShownKeyIndex := by
  rw [update_update]
  exact ⟨rfl, rfl, rfl, rfl⟩
